import Mathlib

set_option maxRecDepth 2048

/-!
# D3 World of Bits — cell-state engine, shallow embedding

This file embeds the core game logic of `src/main.ts` (final revision: the
one with the cell cache and localStorage persistence) in Lean 4 and proves
properties of it.

Modelling choices, each noted at the definition it concerns:
* The source keys its two maps (`gameState.cellTokens`, `cellCache`) by the
  canonical string `getCellKey(cell) = "i,j"`.  Distinct cells always yield
  distinct key strings (integer rendering contains no comma), so the key
  space is in bijection with `Cell`; we key the maps by `Cell` directly and
  model a JS `Map` as an insertion-ordered association list (`mapSet`
  overwrites in place, `mapDelete` removes the entry, `mapGet` is `Map.get`).
* `luck` (imported from `_luck.ts`, not part of the sources) hashes a key to
  a deterministic value in `[0,1)` which is compared against
  `CACHE_SPAWN_PROBABILITY`.  The spawn decision is therefore a pure
  Boolean function of the cell; we abstract it as a parameter
  `gen : Cell → Bool` that every operation takes.
* DOM / Leaflet calls (markers, rectangles, alerts, map panning) have no
  bearing on game state; the win `alert` of `checkWinCondition` is the one
  observable the spec talks about, so it is modelled as a counter field
  `winAlerts`.
* `localStorage` is modelled as an `Option Stored` slot; `Stored` classifies
  stored strings by how `JSON.parse` and the subsequent field accesses in
  `_loadGameState` behave on them (see `Stored`).
-/

/-- A grid cell, `interface Cell { i: number; j: number }`.  The source keys
maps by the string `"i,j"` which is in bijection with the pair itself. -/
structure Cell where
  i : Int
  j : Int
deriving DecidableEq, Repr

/-- `interface CellMemento { i: number; j: number; coins: number }` — the
record stored in `cellCache` for a cell that has been modified. -/
structure CellMemento where
  i : Int
  j : Int
  coins : Int
deriving DecidableEq, Repr

/-- `const NEIGHBORHOOD_SIZE = 8` — the viewing radius. -/
def NEIGHBORHOOD_SIZE : Nat := 8

/-- `const TARGET_TOKEN_VALUE = 32` — the win condition threshold. -/
def TARGET_TOKEN_VALUE : Int := 32

/-- `latLngToCell(CLASSROOM_LOCATION)`: the configured start cell.  The
conversion itself divides the fixed classroom latitude/longitude by
`TILE_DEGREES = 0.0001` and floors; floating point is outside the embedding,
so the resulting constant cell is inlined. -/
def startCell : Cell := ⟨369894, -1220628⟩

/-- JS `Map.get`: first (and in reachable states, only) binding of the key. -/
def mapGet {α : Type} : List (Cell × α) → Cell → Option α
  | [], _ => none
  | (k, v) :: rest, c => if k = c then some v else mapGet rest c

/-- JS `Map.set`: overwrite the existing binding in place, else append. -/
def mapSet {α : Type} : List (Cell × α) → Cell → α → List (Cell × α)
  | [], c, v => [(c, v)]
  | (k, v') :: rest, c, v =>
      if k = c then (c, v) :: rest else (k, v') :: mapSet rest c v

/-- JS `Map.delete`: drop the binding of the key. -/
def mapDelete {α : Type} : List (Cell × α) → Cell → List (Cell × α)
  | [], _ => []
  | (k, v) :: rest, c => if k = c then rest else (k, v) :: mapDelete rest c

/-- JS `Map.has`. -/
def mapHas {α : Type} (m : List (Cell × α)) (c : Cell) : Bool :=
  (mapGet m c).isSome

/-- The mutable part of `gameState` (the map/UI handles are external). -/
structure GameState where
  playerLocation : Cell
  playerInventory : Option Int
  cellTokens : List (Cell × Int)
deriving DecidableEq, Repr

/-- `interface SaveData` — what `saveGameState` serializes: player fields
plus `Array.from(cellCache.values())`. -/
structure SaveData where
  playerLocation : Cell
  playerInventory : Option Int
  cellCache : List CellMemento
deriving DecidableEq, Repr

/-- Classification of the strings that can sit in the `localStorage` slot,
by how `_loadGameState` behaves on them:
* `good d` — the string parses to a well-formed `SaveData` (this is what
  `saveGameState` writes);
* `badParse` — `JSON.parse` throws (malformed JSON), the `catch` fires
  before any assignment;
* `badCache loc inv` — the string parses and the player fields read as
  `loc` / `inv`, but the `cellCache` field is not an array (for example
  `{"playerLocation":{"i":9,"j":9},"playerInventory":null,"cellCache":42}`),
  so `saveData.cellCache.forEach` throws *after* the player fields were
  assigned and the in-memory cache was cleared. -/
inductive Stored where
  | good (d : SaveData)
  | badParse
  | badCache (loc : Cell) (inv : Option Int)
deriving DecidableEq, Repr

/-- The whole mutable world: `gameState`, the module-level `cellCache`, the
`localStorage` slot, and the count of win alerts shown so far. -/
structure World where
  game : GameState
  cellCache : List (Cell × CellMemento)
  storage : Option Stored
  winAlerts : Nat
deriving DecidableEq, Repr

/-- `cellDistance`: Chebyshev distance `Math.max(|Δi|, |Δj|)`. -/
def cellDistance (a b : Cell) : Nat :=
  max (a.i - b.i).natAbs (a.j - b.j).natAbs

/-- `isInteractable(cell)`: within distance 3 of the player. -/
def isInteractable (player c : Cell) : Bool :=
  cellDistance c player ≤ 3

/-- `shouldCellHaveToken(cell)`: `luck(key) < CACHE_SPAWN_PROBABILITY`.
Modelled from the spec: `luck` (file `_luck.ts`, absent from the sources) is
a pure deterministic hash of the key into `[0,1)`; the whole comparison is
therefore a pure Boolean function of the cell, abstracted as `gen`. -/
def shouldCellHaveToken (gen : Cell → Bool) (c : Cell) : Bool :=
  gen c

/-- `loadCell(cell)`: read the memento cached for a cell, or `null`. -/
def loadCell (w : World) (c : Cell) : Option CellMemento :=
  mapGet w.cellCache c

/-- `saveCell(cell, coins)`: record a memento for the cell in `cellCache`. -/
def saveCell (w : World) (c : Cell) (coins : Int) : World :=
  { w with cellCache := mapSet w.cellCache c ⟨c.i, c.j, coins⟩ }

/-- `initializeCellToken(cell)`: skip if already materialized; otherwise
restore from the cache (a memento with `coins = 0` means picked up — leave
empty), and only generate the default token when no memento exists. -/
def initializeCellToken (gen : Cell → Bool) (w : World) (c : Cell) : World :=
  if mapHas w.game.cellTokens c then w
  else
    match loadCell w c with
    | some cached =>
        if cached.coins > 0 then
          { w with game :=
              { w.game with cellTokens := mapSet w.game.cellTokens c cached.coins } }
        else w
    | none =>
        if shouldCellHaveToken gen c then
          { w with game :=
              { w.game with cellTokens := mapSet w.game.cellTokens c 1 } }
        else w

/-- The loop offsets `-NEIGHBORHOOD_SIZE .. NEIGHBORHOOD_SIZE`. -/
def offsets : List Int :=
  (List.range (2 * NEIGHBORHOOD_SIZE + 1)).map
    (fun n => (n : Int) - (NEIGHBORHOOD_SIZE : Int))

/-- The `(di, dj)` pairs visited by the nested loops of `renderGrid`. -/
def windowOffsets : List (Int × Int) :=
  offsets.flatMap (fun di => offsets.map (fun dj => (di, dj)))

/-- The cells visited by `renderGrid` around a player cell (the contents of
its `visibleCells` set). -/
def windowCells (p : Cell) : List Cell :=
  windowOffsets.map (fun d => ⟨p.i + d.1, p.j + d.2⟩)

/-- `renderGrid()`: materialize every window cell (drawing is external),
then drop from `cellTokens` every key outside the window.  The source keeps
exactly the window keys in `visibleCells`; membership in that set is the
same as Chebyshev distance at most `NEIGHBORHOOD_SIZE` from the player
(`mem_windowCells` below), which is the predicate used here. -/
def renderGrid (gen : Cell → Bool) (w : World) : World :=
  let w1 := (windowCells w.game.playerLocation).foldl (initializeCellToken gen) w
  let kept := w1.game.cellTokens.filter
    (fun kv => cellDistance kv.1 w.game.playerLocation ≤ NEIGHBORHOOD_SIZE)
  { w1 with game := { w1.game with cellTokens := kept } }

/-- `saveGameState()`: write the current player fields and
`Array.from(cellCache.values())` to the storage slot. -/
def mkSaveData (w : World) : SaveData :=
  ⟨w.game.playerLocation, w.game.playerInventory, w.cellCache.map Prod.snd⟩

/-- `saveGameState()` — the storage slot now holds a well-formed save. -/
def saveGameState (w : World) : World :=
  { w with storage := some (.good (mkSaveData w)) }

/-- `checkWinCondition()`: alert iff the inventory holds a value at least
`TARGET_TOKEN_VALUE`; the alert is modelled as a counter increment. -/
def checkWinCondition (w : World) : World :=
  match w.game.playerInventory with
  | some v => if v ≥ TARGET_TOKEN_VALUE then { w with winAlerts := w.winAlerts + 1 } else w
  | none => w

/-- Outcome of `handleCellClick` (which alert path was taken). -/
inductive ClickResult where
  | outOfRange
  | pickedUp (v : Int)
  | emptyCellPickup
  | craftEmptyCell
  | crafted (v : Int)
  | mismatch
deriving DecidableEq, Repr

/-- `handleCellClick(cell)`.  Out-of-range targets are rejected first; with
an empty inventory a token is picked up (cell deleted from `cellTokens`, a
`coins = 0` memento saved, state persisted, grid re-rendered, win checked);
with a held token an exactly-matching cell is crafted to double the value
(override saved, state persisted, grid re-rendered, win checked); all other
paths only alert. -/
def handleCellClick (gen : Cell → Bool) (w : World) (c : Cell) : ClickResult × World :=
  if isInteractable w.game.playerLocation c = false then (.outOfRange, w)
  else
    match w.game.playerInventory, mapGet w.game.cellTokens c with
    | none, some t =>
        (.pickedUp t,
          checkWinCondition (renderGrid gen (saveGameState (saveCell
            { w with game :=
                { w.game with playerInventory := some t,
                              cellTokens := mapDelete w.game.cellTokens c } } c 0))))
    | none, none => (.emptyCellPickup, w)
    | some _, none => (.craftEmptyCell, w)
    | some inv, some t =>
        if t = inv then
          (.crafted (t * 2),
            checkWinCondition (renderGrid gen (saveGameState (saveCell
              { w with game :=
                  { w.game with playerInventory := none,
                                cellTokens := mapSet w.game.cellTokens c (t * 2) } } c (t * 2)))))
        else (.mismatch, w)

/-- `movePlayer(di, dj)`: shift the player cell, persist, re-render. -/
def movePlayer (gen : Cell → Bool) (w : World) (di dj : Int) : World :=
  renderGrid gen (saveGameState
    { w with game :=
        { w.game with playerLocation :=
            ⟨w.game.playerLocation.i + di, w.game.playerLocation.j + dj⟩ } })

/-- The movement panel's home button (`ButtonMovement.enable`, `#reset`):
put the player back on the start cell, persist, re-render.  Inventory and
cache are untouched. -/
def homeReset (gen : Cell → Bool) (w : World) : World :=
  renderGrid gen (saveGameState
    { w with game := { w.game with playerLocation := startCell } })

/-- The geolocation watcher callback: ignore updates that resolve to the
current cell, otherwise set the location, persist, re-render. -/
def geoUpdate (gen : Cell → Bool) (w : World) (c : Cell) : World :=
  if c = w.game.playerLocation then w
  else
    renderGrid gen (saveGameState
      { w with game := { w.game with playerLocation := c } })

/-- `resetGameState()` (the New Game button): clear the durable slot, put
the player home with an empty inventory, clear both maps, re-render. -/
def resetGameState (gen : Cell → Bool) (w : World) : World :=
  renderGrid gen
    { game := { playerLocation := startCell, playerInventory := none, cellTokens := [] },
      cellCache := [],
      storage := none,
      winAlerts := w.winAlerts }

/-- `_loadGameState()`: `false` when no save exists; on a save the contents
are parsed inside a `try`: a malformed string throws before any assignment;
a parse with a non-array `cellCache` field assigns the player fields and
clears the cache before `forEach` throws; a well-formed save restores the
player fields and rebuilds the cache keyed by each memento's own cell. -/
def loadGameState (w : World) : Bool × World :=
  match w.storage with
  | none => (false, w)
  | some .badParse => (false, w)
  | some (.badCache loc inv) =>
      (false,
        { w with
            game := { w.game with playerLocation := loc, playerInventory := inv },
            cellCache := [] })
  | some (.good d) =>
      (true,
        { w with
            game := { w.game with playerLocation := d.playerLocation,
                                  playerInventory := d.playerInventory },
            cellCache := d.cellCache.foldl
              (fun acc m => mapSet acc ⟨m.i, m.j⟩ m) [] })

/-- The state after the script's top-level initialization: default
`gameState` with the player placed on the start cell, then `renderGrid()`
and `updateInventoryDisplay()`.  Note the initialization never touches the
storage slot — `_loadGameState` has no caller. -/
def startupWorld (gen : Cell → Bool) (s : Option Stored) : World :=
  renderGrid gen
    { game := { playerLocation := startCell, playerInventory := none, cellTokens := [] },
      cellCache := [],
      storage := s,
      winAlerts := 0 }

/-- The player-triggerable operations of the running program. -/
inductive Op where
  | move (di dj : Int)
  | geo (c : Cell)
  | click (c : Cell)
  | homeReset
  | newGame
deriving DecidableEq, Repr

/-- Dispatch one operation. -/
def applyOp (gen : Cell → Bool) (w : World) : Op → World
  | .move di dj => movePlayer gen w di dj
  | .geo c => geoUpdate gen w c
  | .click c => (handleCellClick gen w c).2
  | .homeReset => homeReset gen w
  | .newGame => resetGameState gen w

/-- The world after a whole run of play. -/
def run (gen : Cell → Bool) (s : Option Stored) (ops : List Op) : World :=
  ops.foldl (applyOp gen) (startupWorld gen s)

/-- Did this click commit a transition? -/
def clickSucceeded : ClickResult → Bool
  | .pickedUp _ => true
  | .crafted _ => true
  | _ => false

/-- `applyOp` instrumented to also collect the cells of successful
pickup/craft transitions. -/
def applyOpT (gen : Cell → Bool) : World × List Cell → Op → World × List Cell
  | (w, acc), .click c =>
      ((handleCellClick gen w c).2,
        if clickSucceeded (handleCellClick gen w c).1 then c :: acc else acc)
  | (w, acc), op => (applyOp gen w op, acc)

/-- A run of play together with the list of cells ever successfully
interacted with. -/
def runT (gen : Cell → Bool) (s : Option Stored) (ops : List Op) : World × List Cell :=
  ops.foldl (applyOpT gen) (startupWorld gen s, [])

/-- Keys of an association list. -/
def mapKeys {α : Type} (m : List (Cell × α)) : List Cell := m.map Prod.fst

/-! ## Structural invariant of reachable worlds -/

/-- Both maps have duplicate-free keys, and every cache entry is keyed by
the cell recorded inside its memento (which is how `saveCell` writes it). -/
def InvW (w : World) : Prop :=
  (mapKeys w.game.cellTokens).Nodup ∧ (mapKeys w.cellCache).Nodup ∧
  ∀ km ∈ w.cellCache, km.1 = Cell.mk km.2.i km.2.j

/-! ## Persistence of the picked-up marker (for C1) -/

/-- After a pickup, the cell carries a `coins = 0` memento and no token. -/
def PickedClean (c : Cell) (w : World) : Prop :=
  mapGet w.cellCache c = some (CellMemento.mk c.i c.j 0) ∧
  mapGet w.game.cellTokens c = none

/-- A concrete session: the player holds a token, one override is cached,
and the storage slot holds a corrupt save that parses but whose `cellCache`
field is not an array. -/
def w4cx : World :=
  { game := { playerLocation := ⟨0, 0⟩, playerInventory := some 5, cellTokens := [] },
    cellCache := [(⟨1, 2⟩, ⟨1, 2, 7⟩)],
    storage := some (Stored.badCache ⟨9, 9⟩ none),
    winAlerts := 0 }

/-! ## Concrete instantiations for the witnesses -/

/-- A generator that spawns nothing. -/
def genNone : Cell → Bool := fun _ => false

/-- The cell one step north of the start cell. -/
def cW1 : Cell := Cell.mk (startCell.i + 1) startCell.j

/-- A generator that spawns a token only one step north of the start cell. -/
def gen1 : Cell → Bool := fun c => decide (c = cW1)

/-- A small session: the player at the origin holds a 3 and faces a cell
holding a 3. -/
def w5w : World :=
  { game := { playerLocation := ⟨0, 0⟩, playerInventory := some 3,
              cellTokens := [(⟨1, 1⟩, 3)] },
    cellCache := [], storage := none, winAlerts := 0 }

/-! ## An abstract replay of a run (player fields, cache, alert count)

The in-memory token map of every state reached through an operation is
fully determined by the override store and the generator (each operation
ends in `renderGrid`).  `TraceState` carries just the player fields, the
override store, and the alert count; `traceOp` replays an operation on it,
and `run_simulation` below proves the replay exact. -/

structure TraceState where
  loc : Cell
  inv : Option Int
  cache : List (Cell × CellMemento)
  alerts : Nat
deriving DecidableEq, Repr

/-- The value a cell materializes to, given the override store and the
generator: a positive cached `coins` wins, a `coins = 0` memento means
empty, and with no memento the generator decides between `1` and empty. -/
def cacheOrGen (gen : Cell → Bool) (cache : List (Cell × CellMemento))
    (c : Cell) : Option Int :=
  match mapGet cache c with
  | some m => if m.coins > 0 then some m.coins else none
  | none => if gen c then some 1 else none

/-- Replay of `handleCellClick` on the abstract state. -/
def traceClick (gen : Cell → Bool) (s : TraceState) (X : Cell) : TraceState :=
  if cellDistance X s.loc ≤ 3 then
    match s.inv, cacheOrGen gen s.cache X with
    | none, some t =>
        { s with inv := some t,
                 cache := mapSet s.cache X ⟨X.i, X.j, 0⟩,
                 alerts := s.alerts + if TARGET_TOKEN_VALUE ≤ t then 1 else 0 }
    | none, none => s
    | some _, none => s
    | some v, some t =>
        if t = v then
          { s with inv := none, cache := mapSet s.cache X ⟨X.i, X.j, t * 2⟩ }
        else s
  else s

/-- Replay of one operation on the abstract state. -/
def traceOp (gen : Cell → Bool) (s : TraceState) : Op → TraceState
  | .move di dj => { s with loc := ⟨s.loc.i + di, s.loc.j + dj⟩ }
  | .geo p => { s with loc := p }
  | .click X => traceClick gen s X
  | .homeReset => { s with loc := startCell }
  | .newGame => { loc := startCell, inv := none, cache := [], alerts := s.alerts }

/-- Replay of a whole run. -/
def traceRun (gen : Cell → Bool) (ops : List Op) : TraceState :=
  ops.foldl (traceOp gen) { loc := startCell, inv := none, cache := [], alerts := 0 }

/-- Every materialized token matches what the store and generator dictate
(no stale values). -/
def Coh (gen : Cell → Bool) (w : World) : Prop :=
  ∀ c t, mapGet w.game.cellTokens c = some t →
    cacheOrGen gen w.cellCache c = some t

/-- Inside the window, the token map agrees exactly with the store and
generator (holds after every `renderGrid`). -/
def Mat (gen : Cell → Bool) (w : World) : Prop :=
  ∀ c, cellDistance c w.game.playerLocation ≤ NEIGHBORHOOD_SIZE →
    mapGet w.game.cellTokens c = cacheOrGen gen w.cellCache c

/-- The world tracks the abstract state, and is coherent. -/
def Agrees (gen : Cell → Bool) (w : World) (s : TraceState) : Prop :=
  w.game.playerLocation = s.loc ∧
  w.game.playerInventory = s.inv ∧
  w.cellCache = s.cache ∧
  w.winAlerts = s.alerts ∧
  Mat gen w ∧ Coh gen w ∧ InvW w

/-- A generator that spawns a token on the 64 cells of the square
`[-4,3] × [-4,3]` (reachable by the geolocation movement provider). -/
def gen6 : Cell → Bool := fun c =>
  decide (-4 ≤ c.i) && decide (c.i ≤ 3) && decide (-4 ≤ c.j) && decide (c.j ≤ 3)
def ops6 : List Op := [
  Op.geo (Cell.mk 0 0),
  Op.geo (Cell.mk (-4) (-3)),
  Op.click (Cell.mk (-4) (-3)),
  Op.click (Cell.mk (-4) (-4)),
  Op.click (Cell.mk (-4) (-1)),
  Op.click (Cell.mk (-4) (-2)),
  Op.click (Cell.mk (-4) (-2)),
  Op.click (Cell.mk (-4) (-4)),
  Op.geo (Cell.mk (-4) (1)),
  Op.click (Cell.mk (-4) (1)),
  Op.click (Cell.mk (-4) (0)),
  Op.click (Cell.mk (-4) (3)),
  Op.click (Cell.mk (-4) (2)),
  Op.click (Cell.mk (-4) (2)),
  Op.click (Cell.mk (-4) (0)),
  Op.click (Cell.mk (-4) (0)),
  Op.geo (Cell.mk (-4) (-4)),
  Op.click (Cell.mk (-4) (-4)),
  Op.click (Cell.mk (-3) (-3)),
  Op.click (Cell.mk (-3) (-4)),
  Op.click (Cell.mk (-3) (-1)),
  Op.click (Cell.mk (-3) (-2)),
  Op.click (Cell.mk (-3) (-2)),
  Op.click (Cell.mk (-3) (-4)),
  Op.geo (Cell.mk (-3) (1)),
  Op.click (Cell.mk (-3) (1)),
  Op.click (Cell.mk (-3) (0)),
  Op.click (Cell.mk (-3) (3)),
  Op.click (Cell.mk (-3) (2)),
  Op.click (Cell.mk (-3) (2)),
  Op.click (Cell.mk (-3) (0)),
  Op.click (Cell.mk (-3) (0)),
  Op.geo (Cell.mk (-3) (-4)),
  Op.click (Cell.mk (-3) (-4)),
  Op.click (Cell.mk (-3) (-4)),
  Op.click (Cell.mk (-4) (-4)),
  Op.click (Cell.mk (-2) (-3)),
  Op.click (Cell.mk (-2) (-4)),
  Op.click (Cell.mk (-2) (-1)),
  Op.click (Cell.mk (-2) (-2)),
  Op.click (Cell.mk (-2) (-2)),
  Op.click (Cell.mk (-2) (-4)),
  Op.geo (Cell.mk (-2) (1)),
  Op.click (Cell.mk (-2) (1)),
  Op.click (Cell.mk (-2) (0)),
  Op.click (Cell.mk (-2) (3)),
  Op.click (Cell.mk (-2) (2)),
  Op.click (Cell.mk (-2) (2)),
  Op.click (Cell.mk (-2) (0)),
  Op.click (Cell.mk (-2) (0)),
  Op.geo (Cell.mk (-2) (-4)),
  Op.click (Cell.mk (-2) (-4)),
  Op.click (Cell.mk (-1) (-3)),
  Op.click (Cell.mk (-1) (-4)),
  Op.click (Cell.mk (-1) (-1)),
  Op.click (Cell.mk (-1) (-2)),
  Op.click (Cell.mk (-1) (-2)),
  Op.click (Cell.mk (-1) (-4)),
  Op.geo (Cell.mk (-1) (1)),
  Op.click (Cell.mk (-1) (1)),
  Op.click (Cell.mk (-1) (0)),
  Op.click (Cell.mk (-1) (3)),
  Op.click (Cell.mk (-1) (2)),
  Op.click (Cell.mk (-1) (2)),
  Op.click (Cell.mk (-1) (0)),
  Op.click (Cell.mk (-1) (0)),
  Op.geo (Cell.mk (-1) (-4)),
  Op.click (Cell.mk (-1) (-4)),
  Op.click (Cell.mk (-1) (-4)),
  Op.click (Cell.mk (-2) (-4)),
  Op.click (Cell.mk (-2) (-4)),
  Op.click (Cell.mk (-4) (-4)),
  Op.click (Cell.mk (0) (-3)),
  Op.click (Cell.mk (0) (-4)),
  Op.click (Cell.mk (0) (-1)),
  Op.click (Cell.mk (0) (-2)),
  Op.click (Cell.mk (0) (-2)),
  Op.click (Cell.mk (0) (-4)),
  Op.geo (Cell.mk 0 1),
  Op.click (Cell.mk 0 1),
  Op.click (Cell.mk 0 0),
  Op.click (Cell.mk 0 3),
  Op.click (Cell.mk 0 2),
  Op.click (Cell.mk 0 2),
  Op.click (Cell.mk 0 0),
  Op.click (Cell.mk 0 0),
  Op.geo (Cell.mk (0) (-4)),
  Op.click (Cell.mk (0) (-4)),
  Op.click (Cell.mk (1) (-3)),
  Op.click (Cell.mk (1) (-4)),
  Op.click (Cell.mk (1) (-1)),
  Op.click (Cell.mk (1) (-2)),
  Op.click (Cell.mk (1) (-2)),
  Op.click (Cell.mk (1) (-4)),
  Op.geo (Cell.mk 1 1),
  Op.click (Cell.mk 1 1),
  Op.click (Cell.mk 1 0),
  Op.click (Cell.mk 1 3),
  Op.click (Cell.mk 1 2),
  Op.click (Cell.mk 1 2),
  Op.click (Cell.mk 1 0),
  Op.click (Cell.mk 1 0),
  Op.geo (Cell.mk (1) (-4)),
  Op.click (Cell.mk (1) (-4)),
  Op.click (Cell.mk (1) (-4)),
  Op.click (Cell.mk (0) (-4)),
  Op.click (Cell.mk (2) (-3)),
  Op.click (Cell.mk (2) (-4)),
  Op.click (Cell.mk (2) (-1)),
  Op.click (Cell.mk (2) (-2)),
  Op.click (Cell.mk (2) (-2)),
  Op.click (Cell.mk (2) (-4)),
  Op.geo (Cell.mk 2 1),
  Op.click (Cell.mk 2 1),
  Op.click (Cell.mk 2 0),
  Op.click (Cell.mk 2 3),
  Op.click (Cell.mk 2 2),
  Op.click (Cell.mk 2 2),
  Op.click (Cell.mk 2 0),
  Op.click (Cell.mk 2 0),
  Op.geo (Cell.mk (2) (-4)),
  Op.click (Cell.mk (2) (-4)),
  Op.click (Cell.mk (3) (-3)),
  Op.click (Cell.mk (3) (-4)),
  Op.click (Cell.mk (3) (-1)),
  Op.click (Cell.mk (3) (-2)),
  Op.click (Cell.mk (3) (-2)),
  Op.click (Cell.mk (3) (-4)),
  Op.geo (Cell.mk 3 1),
  Op.click (Cell.mk 3 1),
  Op.click (Cell.mk 3 0),
  Op.click (Cell.mk 3 3),
  Op.click (Cell.mk 3 2),
  Op.click (Cell.mk 3 2),
  Op.click (Cell.mk 3 0),
  Op.click (Cell.mk 3 0),
  Op.geo (Cell.mk (3) (-4)),
  Op.click (Cell.mk (3) (-4)),
  Op.click (Cell.mk (3) (-4)),
  Op.click (Cell.mk (2) (-4)),
  Op.click (Cell.mk (2) (-4)),
  Op.click (Cell.mk (0) (-4)),
  Op.click (Cell.mk (0) (-4)),
  Op.geo (Cell.mk (-4) (-4)),
  Op.click (Cell.mk (-4) (-4)),
  Op.click (Cell.mk (-4) (-4))]
/-- The initial abstract state of a run. -/
def ts0 : TraceState := { loc := startCell, inv := none, cache := [], alerts := 0 }

def ops6c0 : List Op := [
    Op.geo (Cell.mk (0) (0)),
    Op.geo (Cell.mk (-4) (-3)),
    Op.click (Cell.mk (-4) (-3)),
    Op.click (Cell.mk (-4) (-4)),
    Op.click (Cell.mk (-4) (-1)),
    Op.click (Cell.mk (-4) (-2)),
    Op.click (Cell.mk (-4) (-2)),
    Op.click (Cell.mk (-4) (-4)),
    Op.geo (Cell.mk (-4) (1)),
    Op.click (Cell.mk (-4) (1)),
    Op.click (Cell.mk (-4) (0)),
    Op.click (Cell.mk (-4) (3)),
    Op.click (Cell.mk (-4) (2)),
    Op.click (Cell.mk (-4) (2)),
    Op.click (Cell.mk (-4) (0)),
    Op.click (Cell.mk (-4) (0)),
    Op.geo (Cell.mk (-4) (-4)),
    Op.click (Cell.mk (-4) (-4))]

def ops6c1 : List Op := [
    Op.click (Cell.mk (-3) (-3)),
    Op.click (Cell.mk (-3) (-4)),
    Op.click (Cell.mk (-3) (-1)),
    Op.click (Cell.mk (-3) (-2)),
    Op.click (Cell.mk (-3) (-2)),
    Op.click (Cell.mk (-3) (-4)),
    Op.geo (Cell.mk (-3) (1)),
    Op.click (Cell.mk (-3) (1)),
    Op.click (Cell.mk (-3) (0)),
    Op.click (Cell.mk (-3) (3)),
    Op.click (Cell.mk (-3) (2)),
    Op.click (Cell.mk (-3) (2)),
    Op.click (Cell.mk (-3) (0)),
    Op.click (Cell.mk (-3) (0)),
    Op.geo (Cell.mk (-3) (-4)),
    Op.click (Cell.mk (-3) (-4)),
    Op.click (Cell.mk (-3) (-4)),
    Op.click (Cell.mk (-4) (-4))]

def ops6c2 : List Op := [
    Op.click (Cell.mk (-2) (-3)),
    Op.click (Cell.mk (-2) (-4)),
    Op.click (Cell.mk (-2) (-1)),
    Op.click (Cell.mk (-2) (-2)),
    Op.click (Cell.mk (-2) (-2)),
    Op.click (Cell.mk (-2) (-4)),
    Op.geo (Cell.mk (-2) (1)),
    Op.click (Cell.mk (-2) (1)),
    Op.click (Cell.mk (-2) (0)),
    Op.click (Cell.mk (-2) (3)),
    Op.click (Cell.mk (-2) (2)),
    Op.click (Cell.mk (-2) (2)),
    Op.click (Cell.mk (-2) (0)),
    Op.click (Cell.mk (-2) (0)),
    Op.geo (Cell.mk (-2) (-4)),
    Op.click (Cell.mk (-2) (-4)),
    Op.click (Cell.mk (-1) (-3)),
    Op.click (Cell.mk (-1) (-4))]

def ops6c3 : List Op := [
    Op.click (Cell.mk (-1) (-1)),
    Op.click (Cell.mk (-1) (-2)),
    Op.click (Cell.mk (-1) (-2)),
    Op.click (Cell.mk (-1) (-4)),
    Op.geo (Cell.mk (-1) (1)),
    Op.click (Cell.mk (-1) (1)),
    Op.click (Cell.mk (-1) (0)),
    Op.click (Cell.mk (-1) (3)),
    Op.click (Cell.mk (-1) (2)),
    Op.click (Cell.mk (-1) (2)),
    Op.click (Cell.mk (-1) (0)),
    Op.click (Cell.mk (-1) (0)),
    Op.geo (Cell.mk (-1) (-4)),
    Op.click (Cell.mk (-1) (-4)),
    Op.click (Cell.mk (-1) (-4)),
    Op.click (Cell.mk (-2) (-4)),
    Op.click (Cell.mk (-2) (-4)),
    Op.click (Cell.mk (-4) (-4))]

def ops6c4 : List Op := [
    Op.click (Cell.mk (0) (-3)),
    Op.click (Cell.mk (0) (-4)),
    Op.click (Cell.mk (0) (-1)),
    Op.click (Cell.mk (0) (-2)),
    Op.click (Cell.mk (0) (-2)),
    Op.click (Cell.mk (0) (-4)),
    Op.geo (Cell.mk (0) (1)),
    Op.click (Cell.mk (0) (1)),
    Op.click (Cell.mk (0) (0)),
    Op.click (Cell.mk (0) (3)),
    Op.click (Cell.mk (0) (2)),
    Op.click (Cell.mk (0) (2)),
    Op.click (Cell.mk (0) (0)),
    Op.click (Cell.mk (0) (0)),
    Op.geo (Cell.mk (0) (-4)),
    Op.click (Cell.mk (0) (-4)),
    Op.click (Cell.mk (1) (-3)),
    Op.click (Cell.mk (1) (-4))]

def ops6c5 : List Op := [
    Op.click (Cell.mk (1) (-1)),
    Op.click (Cell.mk (1) (-2)),
    Op.click (Cell.mk (1) (-2)),
    Op.click (Cell.mk (1) (-4)),
    Op.geo (Cell.mk (1) (1)),
    Op.click (Cell.mk (1) (1)),
    Op.click (Cell.mk (1) (0)),
    Op.click (Cell.mk (1) (3)),
    Op.click (Cell.mk (1) (2)),
    Op.click (Cell.mk (1) (2)),
    Op.click (Cell.mk (1) (0)),
    Op.click (Cell.mk (1) (0)),
    Op.geo (Cell.mk (1) (-4)),
    Op.click (Cell.mk (1) (-4)),
    Op.click (Cell.mk (1) (-4)),
    Op.click (Cell.mk (0) (-4)),
    Op.click (Cell.mk (2) (-3)),
    Op.click (Cell.mk (2) (-4))]

def ops6c6 : List Op := [
    Op.click (Cell.mk (2) (-1)),
    Op.click (Cell.mk (2) (-2)),
    Op.click (Cell.mk (2) (-2)),
    Op.click (Cell.mk (2) (-4)),
    Op.geo (Cell.mk (2) (1)),
    Op.click (Cell.mk (2) (1)),
    Op.click (Cell.mk (2) (0)),
    Op.click (Cell.mk (2) (3)),
    Op.click (Cell.mk (2) (2)),
    Op.click (Cell.mk (2) (2)),
    Op.click (Cell.mk (2) (0)),
    Op.click (Cell.mk (2) (0)),
    Op.geo (Cell.mk (2) (-4)),
    Op.click (Cell.mk (2) (-4)),
    Op.click (Cell.mk (3) (-3)),
    Op.click (Cell.mk (3) (-4)),
    Op.click (Cell.mk (3) (-1)),
    Op.click (Cell.mk (3) (-2))]

def ops6c7 : List Op := [
    Op.click (Cell.mk (3) (-2)),
    Op.click (Cell.mk (3) (-4)),
    Op.geo (Cell.mk (3) (1)),
    Op.click (Cell.mk (3) (1)),
    Op.click (Cell.mk (3) (0)),
    Op.click (Cell.mk (3) (3)),
    Op.click (Cell.mk (3) (2)),
    Op.click (Cell.mk (3) (2)),
    Op.click (Cell.mk (3) (0)),
    Op.click (Cell.mk (3) (0)),
    Op.geo (Cell.mk (3) (-4)),
    Op.click (Cell.mk (3) (-4)),
    Op.click (Cell.mk (3) (-4)),
    Op.click (Cell.mk (2) (-4)),
    Op.click (Cell.mk (2) (-4)),
    Op.click (Cell.mk (0) (-4)),
    Op.click (Cell.mk (0) (-4)),
    Op.geo (Cell.mk (-4) (-4))]

def ops6c8 : List Op := [
    Op.click (Cell.mk (-4) (-4)),
    Op.click (Cell.mk (-4) (-4))]

def ts1 : TraceState :=
  { loc := Cell.mk (-4) (-4), inv := none, cache := [(Cell.mk (-4) (-3), CellMemento.mk (-4) (-3) (0)), (Cell.mk (-4) (-4), CellMemento.mk (-4) (-4) (8)), (Cell.mk (-4) (-1), CellMemento.mk (-4) (-1) (0)), (Cell.mk (-4) (-2), CellMemento.mk (-4) (-2) (0)), (Cell.mk (-4) (1), CellMemento.mk (-4) (1) (0)), (Cell.mk (-4) (0), CellMemento.mk (-4) (0) (0)), (Cell.mk (-4) (3), CellMemento.mk (-4) (3) (0)), (Cell.mk (-4) (2), CellMemento.mk (-4) (2) (0))], alerts := 0 }

def ts2 : TraceState :=
  { loc := Cell.mk (-3) (-4), inv := none, cache := [(Cell.mk (-4) (-3), CellMemento.mk (-4) (-3) (0)), (Cell.mk (-4) (-4), CellMemento.mk (-4) (-4) (16)), (Cell.mk (-4) (-1), CellMemento.mk (-4) (-1) (0)), (Cell.mk (-4) (-2), CellMemento.mk (-4) (-2) (0)), (Cell.mk (-4) (1), CellMemento.mk (-4) (1) (0)), (Cell.mk (-4) (0), CellMemento.mk (-4) (0) (0)), (Cell.mk (-4) (3), CellMemento.mk (-4) (3) (0)), (Cell.mk (-4) (2), CellMemento.mk (-4) (2) (0)), (Cell.mk (-3) (-3), CellMemento.mk (-3) (-3) (0)), (Cell.mk (-3) (-4), CellMemento.mk (-3) (-4) (0)), (Cell.mk (-3) (-1), CellMemento.mk (-3) (-1) (0)), (Cell.mk (-3) (-2), CellMemento.mk (-3) (-2) (0)), (Cell.mk (-3) (1), CellMemento.mk (-3) (1) (0)), (Cell.mk (-3) (0), CellMemento.mk (-3) (0) (0)), (Cell.mk (-3) (3), CellMemento.mk (-3) (3) (0)), (Cell.mk (-3) (2), CellMemento.mk (-3) (2) (0))], alerts := 0 }

def ts3 : TraceState :=
  { loc := Cell.mk (-2) (-4), inv := none, cache := [(Cell.mk (-4) (-3), CellMemento.mk (-4) (-3) (0)), (Cell.mk (-4) (-4), CellMemento.mk (-4) (-4) (16)), (Cell.mk (-4) (-1), CellMemento.mk (-4) (-1) (0)), (Cell.mk (-4) (-2), CellMemento.mk (-4) (-2) (0)), (Cell.mk (-4) (1), CellMemento.mk (-4) (1) (0)), (Cell.mk (-4) (0), CellMemento.mk (-4) (0) (0)), (Cell.mk (-4) (3), CellMemento.mk (-4) (3) (0)), (Cell.mk (-4) (2), CellMemento.mk (-4) (2) (0)), (Cell.mk (-3) (-3), CellMemento.mk (-3) (-3) (0)), (Cell.mk (-3) (-4), CellMemento.mk (-3) (-4) (0)), (Cell.mk (-3) (-1), CellMemento.mk (-3) (-1) (0)), (Cell.mk (-3) (-2), CellMemento.mk (-3) (-2) (0)), (Cell.mk (-3) (1), CellMemento.mk (-3) (1) (0)), (Cell.mk (-3) (0), CellMemento.mk (-3) (0) (0)), (Cell.mk (-3) (3), CellMemento.mk (-3) (3) (0)), (Cell.mk (-3) (2), CellMemento.mk (-3) (2) (0)), (Cell.mk (-2) (-3), CellMemento.mk (-2) (-3) (0)), (Cell.mk (-2) (-4), CellMemento.mk (-2) (-4) (8)), (Cell.mk (-2) (-1), CellMemento.mk (-2) (-1) (0)), (Cell.mk (-2) (-2), CellMemento.mk (-2) (-2) (0)), (Cell.mk (-2) (1), CellMemento.mk (-2) (1) (0)), (Cell.mk (-2) (0), CellMemento.mk (-2) (0) (0)), (Cell.mk (-2) (3), CellMemento.mk (-2) (3) (0)), (Cell.mk (-2) (2), CellMemento.mk (-2) (2) (0)), (Cell.mk (-1) (-3), CellMemento.mk (-1) (-3) (0)), (Cell.mk (-1) (-4), CellMemento.mk (-1) (-4) (2))], alerts := 0 }

def ts4 : TraceState :=
  { loc := Cell.mk (-1) (-4), inv := none, cache := [(Cell.mk (-4) (-3), CellMemento.mk (-4) (-3) (0)), (Cell.mk (-4) (-4), CellMemento.mk (-4) (-4) (32)), (Cell.mk (-4) (-1), CellMemento.mk (-4) (-1) (0)), (Cell.mk (-4) (-2), CellMemento.mk (-4) (-2) (0)), (Cell.mk (-4) (1), CellMemento.mk (-4) (1) (0)), (Cell.mk (-4) (0), CellMemento.mk (-4) (0) (0)), (Cell.mk (-4) (3), CellMemento.mk (-4) (3) (0)), (Cell.mk (-4) (2), CellMemento.mk (-4) (2) (0)), (Cell.mk (-3) (-3), CellMemento.mk (-3) (-3) (0)), (Cell.mk (-3) (-4), CellMemento.mk (-3) (-4) (0)), (Cell.mk (-3) (-1), CellMemento.mk (-3) (-1) (0)), (Cell.mk (-3) (-2), CellMemento.mk (-3) (-2) (0)), (Cell.mk (-3) (1), CellMemento.mk (-3) (1) (0)), (Cell.mk (-3) (0), CellMemento.mk (-3) (0) (0)), (Cell.mk (-3) (3), CellMemento.mk (-3) (3) (0)), (Cell.mk (-3) (2), CellMemento.mk (-3) (2) (0)), (Cell.mk (-2) (-3), CellMemento.mk (-2) (-3) (0)), (Cell.mk (-2) (-4), CellMemento.mk (-2) (-4) (0)), (Cell.mk (-2) (-1), CellMemento.mk (-2) (-1) (0)), (Cell.mk (-2) (-2), CellMemento.mk (-2) (-2) (0)), (Cell.mk (-2) (1), CellMemento.mk (-2) (1) (0)), (Cell.mk (-2) (0), CellMemento.mk (-2) (0) (0)), (Cell.mk (-2) (3), CellMemento.mk (-2) (3) (0)), (Cell.mk (-2) (2), CellMemento.mk (-2) (2) (0)), (Cell.mk (-1) (-3), CellMemento.mk (-1) (-3) (0)), (Cell.mk (-1) (-4), CellMemento.mk (-1) (-4) (0)), (Cell.mk (-1) (-1), CellMemento.mk (-1) (-1) (0)), (Cell.mk (-1) (-2), CellMemento.mk (-1) (-2) (0)), (Cell.mk (-1) (1), CellMemento.mk (-1) (1) (0)), (Cell.mk (-1) (0), CellMemento.mk (-1) (0) (0)), (Cell.mk (-1) (3), CellMemento.mk (-1) (3) (0)), (Cell.mk (-1) (2), CellMemento.mk (-1) (2) (0))], alerts := 0 }

def ts5 : TraceState :=
  { loc := Cell.mk (0) (-4), inv := none, cache := [(Cell.mk (-4) (-3), CellMemento.mk (-4) (-3) (0)), (Cell.mk (-4) (-4), CellMemento.mk (-4) (-4) (32)), (Cell.mk (-4) (-1), CellMemento.mk (-4) (-1) (0)), (Cell.mk (-4) (-2), CellMemento.mk (-4) (-2) (0)), (Cell.mk (-4) (1), CellMemento.mk (-4) (1) (0)), (Cell.mk (-4) (0), CellMemento.mk (-4) (0) (0)), (Cell.mk (-4) (3), CellMemento.mk (-4) (3) (0)), (Cell.mk (-4) (2), CellMemento.mk (-4) (2) (0)), (Cell.mk (-3) (-3), CellMemento.mk (-3) (-3) (0)), (Cell.mk (-3) (-4), CellMemento.mk (-3) (-4) (0)), (Cell.mk (-3) (-1), CellMemento.mk (-3) (-1) (0)), (Cell.mk (-3) (-2), CellMemento.mk (-3) (-2) (0)), (Cell.mk (-3) (1), CellMemento.mk (-3) (1) (0)), (Cell.mk (-3) (0), CellMemento.mk (-3) (0) (0)), (Cell.mk (-3) (3), CellMemento.mk (-3) (3) (0)), (Cell.mk (-3) (2), CellMemento.mk (-3) (2) (0)), (Cell.mk (-2) (-3), CellMemento.mk (-2) (-3) (0)), (Cell.mk (-2) (-4), CellMemento.mk (-2) (-4) (0)), (Cell.mk (-2) (-1), CellMemento.mk (-2) (-1) (0)), (Cell.mk (-2) (-2), CellMemento.mk (-2) (-2) (0)), (Cell.mk (-2) (1), CellMemento.mk (-2) (1) (0)), (Cell.mk (-2) (0), CellMemento.mk (-2) (0) (0)), (Cell.mk (-2) (3), CellMemento.mk (-2) (3) (0)), (Cell.mk (-2) (2), CellMemento.mk (-2) (2) (0)), (Cell.mk (-1) (-3), CellMemento.mk (-1) (-3) (0)), (Cell.mk (-1) (-4), CellMemento.mk (-1) (-4) (0)), (Cell.mk (-1) (-1), CellMemento.mk (-1) (-1) (0)), (Cell.mk (-1) (-2), CellMemento.mk (-1) (-2) (0)), (Cell.mk (-1) (1), CellMemento.mk (-1) (1) (0)), (Cell.mk (-1) (0), CellMemento.mk (-1) (0) (0)), (Cell.mk (-1) (3), CellMemento.mk (-1) (3) (0)), (Cell.mk (-1) (2), CellMemento.mk (-1) (2) (0)), (Cell.mk (0) (-3), CellMemento.mk (0) (-3) (0)), (Cell.mk (0) (-4), CellMemento.mk (0) (-4) (8)), (Cell.mk (0) (-1), CellMemento.mk (0) (-1) (0)), (Cell.mk (0) (-2), CellMemento.mk (0) (-2) (0)), (Cell.mk (0) (1), CellMemento.mk (0) (1) (0)), (Cell.mk (0) (0), CellMemento.mk (0) (0) (0)), (Cell.mk (0) (3), CellMemento.mk (0) (3) (0)), (Cell.mk (0) (2), CellMemento.mk (0) (2) (0)), (Cell.mk (1) (-3), CellMemento.mk (1) (-3) (0)), (Cell.mk (1) (-4), CellMemento.mk (1) (-4) (2))], alerts := 0 }

def ts6 : TraceState :=
  { loc := Cell.mk (1) (-4), inv := none, cache := [(Cell.mk (-4) (-3), CellMemento.mk (-4) (-3) (0)), (Cell.mk (-4) (-4), CellMemento.mk (-4) (-4) (32)), (Cell.mk (-4) (-1), CellMemento.mk (-4) (-1) (0)), (Cell.mk (-4) (-2), CellMemento.mk (-4) (-2) (0)), (Cell.mk (-4) (1), CellMemento.mk (-4) (1) (0)), (Cell.mk (-4) (0), CellMemento.mk (-4) (0) (0)), (Cell.mk (-4) (3), CellMemento.mk (-4) (3) (0)), (Cell.mk (-4) (2), CellMemento.mk (-4) (2) (0)), (Cell.mk (-3) (-3), CellMemento.mk (-3) (-3) (0)), (Cell.mk (-3) (-4), CellMemento.mk (-3) (-4) (0)), (Cell.mk (-3) (-1), CellMemento.mk (-3) (-1) (0)), (Cell.mk (-3) (-2), CellMemento.mk (-3) (-2) (0)), (Cell.mk (-3) (1), CellMemento.mk (-3) (1) (0)), (Cell.mk (-3) (0), CellMemento.mk (-3) (0) (0)), (Cell.mk (-3) (3), CellMemento.mk (-3) (3) (0)), (Cell.mk (-3) (2), CellMemento.mk (-3) (2) (0)), (Cell.mk (-2) (-3), CellMemento.mk (-2) (-3) (0)), (Cell.mk (-2) (-4), CellMemento.mk (-2) (-4) (0)), (Cell.mk (-2) (-1), CellMemento.mk (-2) (-1) (0)), (Cell.mk (-2) (-2), CellMemento.mk (-2) (-2) (0)), (Cell.mk (-2) (1), CellMemento.mk (-2) (1) (0)), (Cell.mk (-2) (0), CellMemento.mk (-2) (0) (0)), (Cell.mk (-2) (3), CellMemento.mk (-2) (3) (0)), (Cell.mk (-2) (2), CellMemento.mk (-2) (2) (0)), (Cell.mk (-1) (-3), CellMemento.mk (-1) (-3) (0)), (Cell.mk (-1) (-4), CellMemento.mk (-1) (-4) (0)), (Cell.mk (-1) (-1), CellMemento.mk (-1) (-1) (0)), (Cell.mk (-1) (-2), CellMemento.mk (-1) (-2) (0)), (Cell.mk (-1) (1), CellMemento.mk (-1) (1) (0)), (Cell.mk (-1) (0), CellMemento.mk (-1) (0) (0)), (Cell.mk (-1) (3), CellMemento.mk (-1) (3) (0)), (Cell.mk (-1) (2), CellMemento.mk (-1) (2) (0)), (Cell.mk (0) (-3), CellMemento.mk (0) (-3) (0)), (Cell.mk (0) (-4), CellMemento.mk (0) (-4) (16)), (Cell.mk (0) (-1), CellMemento.mk (0) (-1) (0)), (Cell.mk (0) (-2), CellMemento.mk (0) (-2) (0)), (Cell.mk (0) (1), CellMemento.mk (0) (1) (0)), (Cell.mk (0) (0), CellMemento.mk (0) (0) (0)), (Cell.mk (0) (3), CellMemento.mk (0) (3) (0)), (Cell.mk (0) (2), CellMemento.mk (0) (2) (0)), (Cell.mk (1) (-3), CellMemento.mk (1) (-3) (0)), (Cell.mk (1) (-4), CellMemento.mk (1) (-4) (0)), (Cell.mk (1) (-1), CellMemento.mk (1) (-1) (0)), (Cell.mk (1) (-2), CellMemento.mk (1) (-2) (0)), (Cell.mk (1) (1), CellMemento.mk (1) (1) (0)), (Cell.mk (1) (0), CellMemento.mk (1) (0) (0)), (Cell.mk (1) (3), CellMemento.mk (1) (3) (0)), (Cell.mk (1) (2), CellMemento.mk (1) (2) (0)), (Cell.mk (2) (-3), CellMemento.mk (2) (-3) (0)), (Cell.mk (2) (-4), CellMemento.mk (2) (-4) (2))], alerts := 0 }

def ts7 : TraceState :=
  { loc := Cell.mk (2) (-4), inv := none, cache := [(Cell.mk (-4) (-3), CellMemento.mk (-4) (-3) (0)), (Cell.mk (-4) (-4), CellMemento.mk (-4) (-4) (32)), (Cell.mk (-4) (-1), CellMemento.mk (-4) (-1) (0)), (Cell.mk (-4) (-2), CellMemento.mk (-4) (-2) (0)), (Cell.mk (-4) (1), CellMemento.mk (-4) (1) (0)), (Cell.mk (-4) (0), CellMemento.mk (-4) (0) (0)), (Cell.mk (-4) (3), CellMemento.mk (-4) (3) (0)), (Cell.mk (-4) (2), CellMemento.mk (-4) (2) (0)), (Cell.mk (-3) (-3), CellMemento.mk (-3) (-3) (0)), (Cell.mk (-3) (-4), CellMemento.mk (-3) (-4) (0)), (Cell.mk (-3) (-1), CellMemento.mk (-3) (-1) (0)), (Cell.mk (-3) (-2), CellMemento.mk (-3) (-2) (0)), (Cell.mk (-3) (1), CellMemento.mk (-3) (1) (0)), (Cell.mk (-3) (0), CellMemento.mk (-3) (0) (0)), (Cell.mk (-3) (3), CellMemento.mk (-3) (3) (0)), (Cell.mk (-3) (2), CellMemento.mk (-3) (2) (0)), (Cell.mk (-2) (-3), CellMemento.mk (-2) (-3) (0)), (Cell.mk (-2) (-4), CellMemento.mk (-2) (-4) (0)), (Cell.mk (-2) (-1), CellMemento.mk (-2) (-1) (0)), (Cell.mk (-2) (-2), CellMemento.mk (-2) (-2) (0)), (Cell.mk (-2) (1), CellMemento.mk (-2) (1) (0)), (Cell.mk (-2) (0), CellMemento.mk (-2) (0) (0)), (Cell.mk (-2) (3), CellMemento.mk (-2) (3) (0)), (Cell.mk (-2) (2), CellMemento.mk (-2) (2) (0)), (Cell.mk (-1) (-3), CellMemento.mk (-1) (-3) (0)), (Cell.mk (-1) (-4), CellMemento.mk (-1) (-4) (0)), (Cell.mk (-1) (-1), CellMemento.mk (-1) (-1) (0)), (Cell.mk (-1) (-2), CellMemento.mk (-1) (-2) (0)), (Cell.mk (-1) (1), CellMemento.mk (-1) (1) (0)), (Cell.mk (-1) (0), CellMemento.mk (-1) (0) (0)), (Cell.mk (-1) (3), CellMemento.mk (-1) (3) (0)), (Cell.mk (-1) (2), CellMemento.mk (-1) (2) (0)), (Cell.mk (0) (-3), CellMemento.mk (0) (-3) (0)), (Cell.mk (0) (-4), CellMemento.mk (0) (-4) (16)), (Cell.mk (0) (-1), CellMemento.mk (0) (-1) (0)), (Cell.mk (0) (-2), CellMemento.mk (0) (-2) (0)), (Cell.mk (0) (1), CellMemento.mk (0) (1) (0)), (Cell.mk (0) (0), CellMemento.mk (0) (0) (0)), (Cell.mk (0) (3), CellMemento.mk (0) (3) (0)), (Cell.mk (0) (2), CellMemento.mk (0) (2) (0)), (Cell.mk (1) (-3), CellMemento.mk (1) (-3) (0)), (Cell.mk (1) (-4), CellMemento.mk (1) (-4) (0)), (Cell.mk (1) (-1), CellMemento.mk (1) (-1) (0)), (Cell.mk (1) (-2), CellMemento.mk (1) (-2) (0)), (Cell.mk (1) (1), CellMemento.mk (1) (1) (0)), (Cell.mk (1) (0), CellMemento.mk (1) (0) (0)), (Cell.mk (1) (3), CellMemento.mk (1) (3) (0)), (Cell.mk (1) (2), CellMemento.mk (1) (2) (0)), (Cell.mk (2) (-3), CellMemento.mk (2) (-3) (0)), (Cell.mk (2) (-4), CellMemento.mk (2) (-4) (8)), (Cell.mk (2) (-1), CellMemento.mk (2) (-1) (0)), (Cell.mk (2) (-2), CellMemento.mk (2) (-2) (0)), (Cell.mk (2) (1), CellMemento.mk (2) (1) (0)), (Cell.mk (2) (0), CellMemento.mk (2) (0) (0)), (Cell.mk (2) (3), CellMemento.mk (2) (3) (0)), (Cell.mk (2) (2), CellMemento.mk (2) (2) (0)), (Cell.mk (3) (-3), CellMemento.mk (3) (-3) (0)), (Cell.mk (3) (-4), CellMemento.mk (3) (-4) (2)), (Cell.mk (3) (-1), CellMemento.mk (3) (-1) (0)), (Cell.mk (3) (-2), CellMemento.mk (3) (-2) (2))], alerts := 0 }

def ts8 : TraceState :=
  { loc := Cell.mk (-4) (-4), inv := some (32), cache := [(Cell.mk (-4) (-3), CellMemento.mk (-4) (-3) (0)), (Cell.mk (-4) (-4), CellMemento.mk (-4) (-4) (32)), (Cell.mk (-4) (-1), CellMemento.mk (-4) (-1) (0)), (Cell.mk (-4) (-2), CellMemento.mk (-4) (-2) (0)), (Cell.mk (-4) (1), CellMemento.mk (-4) (1) (0)), (Cell.mk (-4) (0), CellMemento.mk (-4) (0) (0)), (Cell.mk (-4) (3), CellMemento.mk (-4) (3) (0)), (Cell.mk (-4) (2), CellMemento.mk (-4) (2) (0)), (Cell.mk (-3) (-3), CellMemento.mk (-3) (-3) (0)), (Cell.mk (-3) (-4), CellMemento.mk (-3) (-4) (0)), (Cell.mk (-3) (-1), CellMemento.mk (-3) (-1) (0)), (Cell.mk (-3) (-2), CellMemento.mk (-3) (-2) (0)), (Cell.mk (-3) (1), CellMemento.mk (-3) (1) (0)), (Cell.mk (-3) (0), CellMemento.mk (-3) (0) (0)), (Cell.mk (-3) (3), CellMemento.mk (-3) (3) (0)), (Cell.mk (-3) (2), CellMemento.mk (-3) (2) (0)), (Cell.mk (-2) (-3), CellMemento.mk (-2) (-3) (0)), (Cell.mk (-2) (-4), CellMemento.mk (-2) (-4) (0)), (Cell.mk (-2) (-1), CellMemento.mk (-2) (-1) (0)), (Cell.mk (-2) (-2), CellMemento.mk (-2) (-2) (0)), (Cell.mk (-2) (1), CellMemento.mk (-2) (1) (0)), (Cell.mk (-2) (0), CellMemento.mk (-2) (0) (0)), (Cell.mk (-2) (3), CellMemento.mk (-2) (3) (0)), (Cell.mk (-2) (2), CellMemento.mk (-2) (2) (0)), (Cell.mk (-1) (-3), CellMemento.mk (-1) (-3) (0)), (Cell.mk (-1) (-4), CellMemento.mk (-1) (-4) (0)), (Cell.mk (-1) (-1), CellMemento.mk (-1) (-1) (0)), (Cell.mk (-1) (-2), CellMemento.mk (-1) (-2) (0)), (Cell.mk (-1) (1), CellMemento.mk (-1) (1) (0)), (Cell.mk (-1) (0), CellMemento.mk (-1) (0) (0)), (Cell.mk (-1) (3), CellMemento.mk (-1) (3) (0)), (Cell.mk (-1) (2), CellMemento.mk (-1) (2) (0)), (Cell.mk (0) (-3), CellMemento.mk (0) (-3) (0)), (Cell.mk (0) (-4), CellMemento.mk (0) (-4) (0)), (Cell.mk (0) (-1), CellMemento.mk (0) (-1) (0)), (Cell.mk (0) (-2), CellMemento.mk (0) (-2) (0)), (Cell.mk (0) (1), CellMemento.mk (0) (1) (0)), (Cell.mk (0) (0), CellMemento.mk (0) (0) (0)), (Cell.mk (0) (3), CellMemento.mk (0) (3) (0)), (Cell.mk (0) (2), CellMemento.mk (0) (2) (0)), (Cell.mk (1) (-3), CellMemento.mk (1) (-3) (0)), (Cell.mk (1) (-4), CellMemento.mk (1) (-4) (0)), (Cell.mk (1) (-1), CellMemento.mk (1) (-1) (0)), (Cell.mk (1) (-2), CellMemento.mk (1) (-2) (0)), (Cell.mk (1) (1), CellMemento.mk (1) (1) (0)), (Cell.mk (1) (0), CellMemento.mk (1) (0) (0)), (Cell.mk (1) (3), CellMemento.mk (1) (3) (0)), (Cell.mk (1) (2), CellMemento.mk (1) (2) (0)), (Cell.mk (2) (-3), CellMemento.mk (2) (-3) (0)), (Cell.mk (2) (-4), CellMemento.mk (2) (-4) (0)), (Cell.mk (2) (-1), CellMemento.mk (2) (-1) (0)), (Cell.mk (2) (-2), CellMemento.mk (2) (-2) (0)), (Cell.mk (2) (1), CellMemento.mk (2) (1) (0)), (Cell.mk (2) (0), CellMemento.mk (2) (0) (0)), (Cell.mk (2) (3), CellMemento.mk (2) (3) (0)), (Cell.mk (2) (2), CellMemento.mk (2) (2) (0)), (Cell.mk (3) (-3), CellMemento.mk (3) (-3) (0)), (Cell.mk (3) (-4), CellMemento.mk (3) (-4) (0)), (Cell.mk (3) (-1), CellMemento.mk (3) (-1) (0)), (Cell.mk (3) (-2), CellMemento.mk (3) (-2) (0)), (Cell.mk (3) (1), CellMemento.mk (3) (1) (0)), (Cell.mk (3) (0), CellMemento.mk (3) (0) (0)), (Cell.mk (3) (3), CellMemento.mk (3) (3) (0)), (Cell.mk (3) (2), CellMemento.mk (3) (2) (0))], alerts := 1 }

def ts9 : TraceState :=
  { loc := Cell.mk (-4) (-4), inv := some (64), cache := [(Cell.mk (-4) (-3), CellMemento.mk (-4) (-3) (0)), (Cell.mk (-4) (-4), CellMemento.mk (-4) (-4) (0)), (Cell.mk (-4) (-1), CellMemento.mk (-4) (-1) (0)), (Cell.mk (-4) (-2), CellMemento.mk (-4) (-2) (0)), (Cell.mk (-4) (1), CellMemento.mk (-4) (1) (0)), (Cell.mk (-4) (0), CellMemento.mk (-4) (0) (0)), (Cell.mk (-4) (3), CellMemento.mk (-4) (3) (0)), (Cell.mk (-4) (2), CellMemento.mk (-4) (2) (0)), (Cell.mk (-3) (-3), CellMemento.mk (-3) (-3) (0)), (Cell.mk (-3) (-4), CellMemento.mk (-3) (-4) (0)), (Cell.mk (-3) (-1), CellMemento.mk (-3) (-1) (0)), (Cell.mk (-3) (-2), CellMemento.mk (-3) (-2) (0)), (Cell.mk (-3) (1), CellMemento.mk (-3) (1) (0)), (Cell.mk (-3) (0), CellMemento.mk (-3) (0) (0)), (Cell.mk (-3) (3), CellMemento.mk (-3) (3) (0)), (Cell.mk (-3) (2), CellMemento.mk (-3) (2) (0)), (Cell.mk (-2) (-3), CellMemento.mk (-2) (-3) (0)), (Cell.mk (-2) (-4), CellMemento.mk (-2) (-4) (0)), (Cell.mk (-2) (-1), CellMemento.mk (-2) (-1) (0)), (Cell.mk (-2) (-2), CellMemento.mk (-2) (-2) (0)), (Cell.mk (-2) (1), CellMemento.mk (-2) (1) (0)), (Cell.mk (-2) (0), CellMemento.mk (-2) (0) (0)), (Cell.mk (-2) (3), CellMemento.mk (-2) (3) (0)), (Cell.mk (-2) (2), CellMemento.mk (-2) (2) (0)), (Cell.mk (-1) (-3), CellMemento.mk (-1) (-3) (0)), (Cell.mk (-1) (-4), CellMemento.mk (-1) (-4) (0)), (Cell.mk (-1) (-1), CellMemento.mk (-1) (-1) (0)), (Cell.mk (-1) (-2), CellMemento.mk (-1) (-2) (0)), (Cell.mk (-1) (1), CellMemento.mk (-1) (1) (0)), (Cell.mk (-1) (0), CellMemento.mk (-1) (0) (0)), (Cell.mk (-1) (3), CellMemento.mk (-1) (3) (0)), (Cell.mk (-1) (2), CellMemento.mk (-1) (2) (0)), (Cell.mk (0) (-3), CellMemento.mk (0) (-3) (0)), (Cell.mk (0) (-4), CellMemento.mk (0) (-4) (0)), (Cell.mk (0) (-1), CellMemento.mk (0) (-1) (0)), (Cell.mk (0) (-2), CellMemento.mk (0) (-2) (0)), (Cell.mk (0) (1), CellMemento.mk (0) (1) (0)), (Cell.mk (0) (0), CellMemento.mk (0) (0) (0)), (Cell.mk (0) (3), CellMemento.mk (0) (3) (0)), (Cell.mk (0) (2), CellMemento.mk (0) (2) (0)), (Cell.mk (1) (-3), CellMemento.mk (1) (-3) (0)), (Cell.mk (1) (-4), CellMemento.mk (1) (-4) (0)), (Cell.mk (1) (-1), CellMemento.mk (1) (-1) (0)), (Cell.mk (1) (-2), CellMemento.mk (1) (-2) (0)), (Cell.mk (1) (1), CellMemento.mk (1) (1) (0)), (Cell.mk (1) (0), CellMemento.mk (1) (0) (0)), (Cell.mk (1) (3), CellMemento.mk (1) (3) (0)), (Cell.mk (1) (2), CellMemento.mk (1) (2) (0)), (Cell.mk (2) (-3), CellMemento.mk (2) (-3) (0)), (Cell.mk (2) (-4), CellMemento.mk (2) (-4) (0)), (Cell.mk (2) (-1), CellMemento.mk (2) (-1) (0)), (Cell.mk (2) (-2), CellMemento.mk (2) (-2) (0)), (Cell.mk (2) (1), CellMemento.mk (2) (1) (0)), (Cell.mk (2) (0), CellMemento.mk (2) (0) (0)), (Cell.mk (2) (3), CellMemento.mk (2) (3) (0)), (Cell.mk (2) (2), CellMemento.mk (2) (2) (0)), (Cell.mk (3) (-3), CellMemento.mk (3) (-3) (0)), (Cell.mk (3) (-4), CellMemento.mk (3) (-4) (0)), (Cell.mk (3) (-1), CellMemento.mk (3) (-1) (0)), (Cell.mk (3) (-2), CellMemento.mk (3) (-2) (0)), (Cell.mk (3) (1), CellMemento.mk (3) (1) (0)), (Cell.mk (3) (0), CellMemento.mk (3) (0) (0)), (Cell.mk (3) (3), CellMemento.mk (3) (3) (0)), (Cell.mk (3) (2), CellMemento.mk (3) (2) (0))], alerts := 2 }

/-! ## Lemmas and claim theorems -/

/-! ## Association-list map lemmas -/

theorem mapGet_mapSet_self {α : Type} (m : List (Cell × α)) (k : Cell) (v : α) :
    mapGet (mapSet m k v) k = some v := by
  induction m with
  | nil => simp [mapSet, mapGet]
  | cons hd tl ih =>
      obtain ⟨k0, v0⟩ := hd
      by_cases h : k0 = k
      · simp [mapSet, h, mapGet]
      · simp [mapSet, h, mapGet, ih]

theorem mapGet_mapSet_ne {α : Type} (m : List (Cell × α)) (k k' : Cell) (v : α)
    (h : k' ≠ k) : mapGet (mapSet m k v) k' = mapGet m k' := by
  have hne : ¬ k = k' := fun h1 => h h1.symm
  induction m with
  | nil => simp [mapSet, mapGet, hne]
  | cons hd tl ih =>
      obtain ⟨k0, v0⟩ := hd
      by_cases h0 : k0 = k
      · subst h0
        simp [mapSet, mapGet, hne]
      · by_cases h1 : k0 = k'
        · simp [mapSet, mapGet, h0, h1, h]
        · simp [mapSet, mapGet, h0, h1, ih]

theorem mapGet_mapDelete_none {α : Type} (m : List (Cell × α)) (k k' : Cell)
    (h : mapGet m k' = none) : mapGet (mapDelete m k) k' = none := by
  induction m with
  | nil => simp [mapDelete, mapGet]
  | cons hd tl ih =>
      obtain ⟨k0, v0⟩ := hd
      simp only [mapGet] at h
      by_cases h1 : k0 = k'
      · simp [h1] at h
      · simp only [if_neg h1] at h
        by_cases h0 : k0 = k
        · simp [mapDelete, h0, h]
        · simp [mapDelete, h0, mapGet, h1, ih h]

theorem mapGet_eq_none_of_not_mem_keys {α : Type} (m : List (Cell × α)) (k : Cell)
    (h : k ∉ mapKeys m) : mapGet m k = none := by
  induction m with
  | nil => simp [mapGet]
  | cons hd tl ih =>
      obtain ⟨k0, v0⟩ := hd
      simp only [mapKeys, List.map_cons, List.mem_cons] at h
      push_neg at h
      have hne : ¬ k0 = k := fun h1 => h.1 h1.symm
      simp [mapGet, hne, ih (by simpa [mapKeys] using h.2)]

/-- In a map with no duplicate keys, deleting a key truly removes it. -/
theorem mapGet_mapDelete_self {α : Type} (m : List (Cell × α)) (k : Cell)
    (h : (mapKeys m).Nodup) : mapGet (mapDelete m k) k = none := by
  induction m with
  | nil => simp [mapDelete, mapGet]
  | cons hd tl ih =>
      obtain ⟨k0, v0⟩ := hd
      simp only [mapKeys, List.map_cons, List.nodup_cons] at h
      by_cases h0 : k0 = k
      · subst h0
        simp only [mapDelete, if_pos rfl]
        exact mapGet_eq_none_of_not_mem_keys tl k0 h.1
      · simp [mapDelete, h0, mapGet, ih h.2]

theorem mapGet_filter_none {α : Type} (m : List (Cell × α)) (k : Cell)
    (p : Cell × α → Bool) (h : mapGet m k = none) :
    mapGet (m.filter p) k = none := by
  induction m with
  | nil => simp [mapGet]
  | cons hd tl ih =>
      obtain ⟨k0, v0⟩ := hd
      simp only [mapGet] at h
      by_cases h1 : k0 = k
      · simp [h1] at h
      · simp only [if_neg h1] at h
        by_cases hp : p (k0, v0)
        · simp [List.filter_cons, hp, mapGet, h1, ih h]
        · simp [List.filter_cons, hp, ih h]

theorem mapGet_filter_of_pred {α : Type} (m : List (Cell × α)) (k : Cell) (v : α)
    (p : Cell × α → Bool) (h : mapGet m k = some v) (hp : p (k, v) = true) :
    mapGet (m.filter p) k = some v := by
  induction m with
  | nil => simp [mapGet] at h
  | cons hd tl ih =>
      obtain ⟨k0, v0⟩ := hd
      simp only [mapGet] at h
      by_cases h1 : k0 = k
      · subst h1
        simp only [if_pos rfl] at h
        obtain rfl : v0 = v := by simpa using h
        simp [List.filter_cons, hp, mapGet]
      · simp only [if_neg h1] at h
        by_cases hq : p (k0, v0)
        · simp [List.filter_cons, hq, mapGet, h1, ih h]
        · simp [List.filter_cons, hq, ih h]

theorem mem_mapSet {α : Type} (m : List (Cell × α)) (k : Cell) (v : α)
    (x : Cell × α) (h : x ∈ mapSet m k v) : x ∈ m ∨ x = (k, v) := by
  induction m with
  | nil =>
      simp only [mapSet, List.mem_singleton] at h
      exact Or.inr h
  | cons hd tl ih =>
      obtain ⟨k0, v0⟩ := hd
      by_cases h0 : k0 = k
      · rw [show mapSet ((k0, v0) :: tl) k v = (k, v) :: tl from by simp [mapSet, h0]] at h
        rcases List.mem_cons.mp h with h | h
        · exact Or.inr h
        · exact Or.inl (List.mem_cons_of_mem _ h)
      · simp only [mapSet, if_neg h0, List.mem_cons] at h
        rcases h with h | h
        · exact Or.inl (h ▸ List.mem_cons_self _ _)
        · rcases ih h with h2 | h2
          · exact Or.inl (List.mem_cons_of_mem _ h2)
          · exact Or.inr h2

theorem mapKeys_mapSet_nodup {α : Type} (m : List (Cell × α)) (k : Cell) (v : α)
    (h : (mapKeys m).Nodup) : (mapKeys (mapSet m k v)).Nodup := by
  induction m with
  | nil => simp [mapSet, mapKeys]
  | cons hd tl ih =>
      obtain ⟨k0, v0⟩ := hd
      simp only [mapKeys, List.map_cons, List.nodup_cons] at h
      by_cases h0 : k0 = k
      · rw [show mapSet ((k0, v0) :: tl) k v = (k, v) :: tl from by simp [mapSet, h0]]
        subst h0
        simp only [mapKeys, List.map_cons, List.nodup_cons]
        exact h
      · simp only [mapSet, if_neg h0, mapKeys, List.map_cons, List.nodup_cons]
        constructor
        · intro hmem
          obtain ⟨x, hx, hfst⟩ := List.mem_map.mp hmem
          rcases mem_mapSet tl k v x hx with h2 | h2
          · exact h.1 (hfst ▸ List.mem_map_of_mem Prod.fst h2)
          · apply h0
            rw [h2] at hfst
            exact hfst.symm
        · exact ih h.2

theorem mapKeys_mapDelete_sublist {α : Type} (m : List (Cell × α)) (k : Cell) :
    (mapKeys (mapDelete m k)).Sublist (mapKeys m) := by
  induction m with
  | nil => simp [mapDelete, mapKeys]
  | cons hd tl ih =>
      obtain ⟨k0, v0⟩ := hd
      by_cases h0 : k0 = k
      · simp only [mapDelete, if_pos h0, mapKeys, List.map_cons]
        exact List.sublist_cons_self _ _
      · simp only [mapDelete, if_neg h0, mapKeys, List.map_cons]
        exact List.Sublist.cons₂ _ ih

theorem mapKeys_filter_sublist {α : Type} (m : List (Cell × α)) (p : Cell × α → Bool) :
    (mapKeys (m.filter p)).Sublist (mapKeys m) :=
  List.Sublist.map Prod.fst (List.filter_sublist m)

theorem mapGet_filter_none_pred {α : Type} (m : List (Cell × α)) (k : Cell)
    (p : Cell × α → Bool) (h : ∀ v, p (k, v) = false) :
    mapGet (m.filter p) k = none := by
  induction m with
  | nil => simp [mapGet]
  | cons hd tl ih =>
      obtain ⟨k0, v0⟩ := hd
      by_cases hp : p (k0, v0)
      · have hk : ¬ k0 = k := by
          intro he
          rw [he] at hp
          rw [h v0] at hp
          exact Bool.false_ne_true hp
        simp [List.filter_cons, hp, mapGet, hk, ih]
      · simp [List.filter_cons, hp, ih]

/-! ## Field-preservation lemmas for the individual operations -/

theorem initializeCellToken_cellCache (gen : Cell → Bool) (w : World) (c : Cell) :
    (initializeCellToken gen w c).cellCache = w.cellCache := by
  unfold initializeCellToken
  repeat' split
  all_goals rfl

theorem initializeCellToken_storage (gen : Cell → Bool) (w : World) (c : Cell) :
    (initializeCellToken gen w c).storage = w.storage := by
  unfold initializeCellToken
  repeat' split
  all_goals rfl

theorem initializeCellToken_winAlerts (gen : Cell → Bool) (w : World) (c : Cell) :
    (initializeCellToken gen w c).winAlerts = w.winAlerts := by
  unfold initializeCellToken
  repeat' split
  all_goals rfl

theorem initializeCellToken_playerLocation (gen : Cell → Bool) (w : World) (c : Cell) :
    (initializeCellToken gen w c).game.playerLocation = w.game.playerLocation := by
  unfold initializeCellToken
  repeat' split
  all_goals rfl

theorem initializeCellToken_playerInventory (gen : Cell → Bool) (w : World) (c : Cell) :
    (initializeCellToken gen w c).game.playerInventory = w.game.playerInventory := by
  unfold initializeCellToken
  repeat' split
  all_goals rfl

theorem foldl_init_cellCache (gen : Cell → Bool) (l : List Cell) (w : World) :
    (l.foldl (initializeCellToken gen) w).cellCache = w.cellCache := by
  induction l generalizing w with
  | nil => rfl
  | cons c tl ih => rw [List.foldl_cons, ih, initializeCellToken_cellCache]

theorem foldl_init_storage (gen : Cell → Bool) (l : List Cell) (w : World) :
    (l.foldl (initializeCellToken gen) w).storage = w.storage := by
  induction l generalizing w with
  | nil => rfl
  | cons c tl ih => rw [List.foldl_cons, ih, initializeCellToken_storage]

theorem foldl_init_winAlerts (gen : Cell → Bool) (l : List Cell) (w : World) :
    (l.foldl (initializeCellToken gen) w).winAlerts = w.winAlerts := by
  induction l generalizing w with
  | nil => rfl
  | cons c tl ih => rw [List.foldl_cons, ih, initializeCellToken_winAlerts]

theorem foldl_init_playerLocation (gen : Cell → Bool) (l : List Cell) (w : World) :
    (l.foldl (initializeCellToken gen) w).game.playerLocation = w.game.playerLocation := by
  induction l generalizing w with
  | nil => rfl
  | cons c tl ih => rw [List.foldl_cons, ih, initializeCellToken_playerLocation]

theorem foldl_init_playerInventory (gen : Cell → Bool) (l : List Cell) (w : World) :
    (l.foldl (initializeCellToken gen) w).game.playerInventory = w.game.playerInventory := by
  induction l generalizing w with
  | nil => rfl
  | cons c tl ih => rw [List.foldl_cons, ih, initializeCellToken_playerInventory]

theorem renderGrid_cellCache (gen : Cell → Bool) (w : World) :
    (renderGrid gen w).cellCache = w.cellCache := by
  simp [renderGrid, foldl_init_cellCache]

theorem renderGrid_storage (gen : Cell → Bool) (w : World) :
    (renderGrid gen w).storage = w.storage := by
  simp [renderGrid, foldl_init_storage]

theorem renderGrid_winAlerts (gen : Cell → Bool) (w : World) :
    (renderGrid gen w).winAlerts = w.winAlerts := by
  simp [renderGrid, foldl_init_winAlerts]

theorem renderGrid_playerLocation (gen : Cell → Bool) (w : World) :
    (renderGrid gen w).game.playerLocation = w.game.playerLocation := by
  simp [renderGrid, foldl_init_playerLocation]

theorem renderGrid_playerInventory (gen : Cell → Bool) (w : World) :
    (renderGrid gen w).game.playerInventory = w.game.playerInventory := by
  simp [renderGrid, foldl_init_playerInventory]

theorem checkWinCondition_cellCache (w : World) :
    (checkWinCondition w).cellCache = w.cellCache := by
  unfold checkWinCondition
  repeat' split
  all_goals rfl

theorem checkWinCondition_storage (w : World) :
    (checkWinCondition w).storage = w.storage := by
  unfold checkWinCondition
  repeat' split
  all_goals rfl

theorem checkWinCondition_game (w : World) :
    (checkWinCondition w).game = w.game := by
  unfold checkWinCondition
  repeat' split
  all_goals rfl

/-! ## Window geometry -/

theorem mem_offsets (d : Int) : d ∈ offsets ↔ -8 ≤ d ∧ d ≤ 8 := by
  constructor
  · intro h
    have h2 : d ∈ (List.range (2 * NEIGHBORHOOD_SIZE + 1)).map
        (fun n : Nat => (n : Int) - (NEIGHBORHOOD_SIZE : Int)) := h
    obtain ⟨n, hn, he⟩ := List.mem_map.mp h2
    rw [List.mem_range] at hn
    unfold NEIGHBORHOOD_SIZE at hn he
    omega
  · intro h
    show d ∈ (List.range (2 * NEIGHBORHOOD_SIZE + 1)).map
      (fun n : Nat => (n : Int) - (NEIGHBORHOOD_SIZE : Int))
    refine List.mem_map.mpr ⟨(d + 8).toNat, List.mem_range.mpr ?_, ?_⟩
    · unfold NEIGHBORHOOD_SIZE
      omega
    · unfold NEIGHBORHOOD_SIZE
      omega

theorem mem_windowOffsets (d : Int × Int) :
    d ∈ windowOffsets ↔ -8 ≤ d.1 ∧ d.1 ≤ 8 ∧ -8 ≤ d.2 ∧ d.2 ≤ 8 := by
  obtain ⟨d1, d2⟩ := d
  simp only [windowOffsets, List.mem_flatMap, List.mem_map, Prod.mk.injEq]
  constructor
  · rintro ⟨a, ha, b, hb, rfl, rfl⟩
    have h1 := (mem_offsets a).mp ha
    have h2 := (mem_offsets b).mp hb
    exact ⟨h1.1, h1.2, h2.1, h2.2⟩
  · rintro ⟨h1, h2, h3, h4⟩
    exact ⟨d1, (mem_offsets d1).mpr ⟨h1, h2⟩, d2, (mem_offsets d2).mpr ⟨h3, h4⟩, rfl, rfl⟩

theorem mem_windowCells (p c : Cell) :
    c ∈ windowCells p ↔ cellDistance c p ≤ NEIGHBORHOOD_SIZE := by
  simp only [windowCells, List.mem_map]
  constructor
  · rintro ⟨d, hd, rfl⟩
    have hb := (mem_windowOffsets d).mp hd
    simp only [cellDistance, NEIGHBORHOOD_SIZE, Nat.max_le]
    omega
  · intro h
    simp only [cellDistance, NEIGHBORHOOD_SIZE, Nat.max_le] at h
    refine ⟨(c.i - p.i, c.j - p.j), (mem_windowOffsets _).mpr (by dsimp only; omega), ?_⟩
    obtain ⟨ci, cj⟩ := c
    simp only [Cell.mk.injEq]
    constructor <;> dsimp only <;> omega

set_option maxRecDepth 8000 in
theorem windowCells_length (p : Cell) :
    (windowCells p).length = (2 * NEIGHBORHOOD_SIZE + 1) ^ 2 := by
  rw [windowCells, List.length_map]
  decide

set_option maxRecDepth 8000 in
theorem windowOffsets_nodup : windowOffsets.Nodup := by decide

theorem windowCells_nodup (p : Cell) : (windowCells p).Nodup := by
  apply List.Nodup.map
  · intro a b he
    obtain ⟨a1, a2⟩ := a
    obtain ⟨b1, b2⟩ := b
    simp only [Cell.mk.injEq] at he
    simp only [Prod.mk.injEq]
    constructor <;> omega
  · exact windowOffsets_nodup

/-- After `renderGrid`, no token state survives outside the new window. -/
theorem renderGrid_outside_none (gen : Cell → Bool) (w : World) (c : Cell)
    (h : ¬ cellDistance c w.game.playerLocation ≤ NEIGHBORHOOD_SIZE) :
    mapGet (renderGrid gen w).game.cellTokens c = none := by
  simp only [renderGrid]
  apply mapGet_filter_none_pred
  intro v
  simp only [decide_eq_false_iff_not]
  exact h

/-! ## Trivial field lemmas for the write-through helpers -/

theorem saveCell_game (w : World) (c : Cell) (x : Int) :
    (saveCell w c x).game = w.game := rfl

theorem saveCell_storage (w : World) (c : Cell) (x : Int) :
    (saveCell w c x).storage = w.storage := rfl

theorem saveCell_winAlerts (w : World) (c : Cell) (x : Int) :
    (saveCell w c x).winAlerts = w.winAlerts := rfl

theorem saveGameState_game (w : World) : (saveGameState w).game = w.game := rfl

theorem saveGameState_cellCache (w : World) :
    (saveGameState w).cellCache = w.cellCache := rfl

theorem saveGameState_winAlerts (w : World) :
    (saveGameState w).winAlerts = w.winAlerts := rfl

theorem isInteractable_le (p c : Cell) (h : isInteractable p c = true) :
    cellDistance c p ≤ NEIGHBORHOOD_SIZE := by
  simp only [isInteractable, decide_eq_true_eq] at h
  unfold NEIGHBORHOOD_SIZE
  omega

/-! ## How materialization treats an individual cell -/

theorem initializeCellToken_preserves_some (gen : Cell → Bool) (w : World)
    (c c' : Cell) (x : Int) (h : mapGet w.game.cellTokens c = some x) :
    mapGet (initializeCellToken gen w c').game.cellTokens c = some x := by
  by_cases he : c' = c
  · subst he
    unfold initializeCellToken
    rw [show mapHas w.game.cellTokens c' = true by simp [mapHas, h]]
    simpa using h
  · unfold initializeCellToken
    repeat' split
    all_goals first
      | exact h
      | (rw [show (mapGet (mapSet w.game.cellTokens c' _) c : Option Int)
            = mapGet w.game.cellTokens c
          from mapGet_mapSet_ne _ _ _ _ (fun h2 => he h2.symm)]
         exact h)

theorem foldl_init_preserves_some (gen : Cell → Bool) (l : List Cell) (w : World)
    (c : Cell) (x : Int) (h : mapGet w.game.cellTokens c = some x) :
    mapGet (l.foldl (initializeCellToken gen) w).game.cellTokens c = some x := by
  induction l generalizing w with
  | nil => exact h
  | cons c0 tl ih =>
      rw [List.foldl_cons]
      exact ih _ (initializeCellToken_preserves_some gen w c c0 x h)

/-- A token inside the window survives `renderGrid` unchanged. -/
theorem renderGrid_preserves_some (gen : Cell → Bool) (w : World) (c : Cell) (x : Int)
    (h : mapGet w.game.cellTokens c = some x)
    (hd : cellDistance c w.game.playerLocation ≤ NEIGHBORHOOD_SIZE) :
    mapGet (renderGrid gen w).game.cellTokens c = some x := by
  simp only [renderGrid]
  apply mapGet_filter_of_pred
  · exact foldl_init_preserves_some gen _ w c x h
  · simpa using hd

theorem initializeCellToken_preserves_none (gen : Cell → Bool) (w : World)
    (c c' : Cell)
    (hn : mapGet w.game.cellTokens c = none)
    (hc : mapGet w.cellCache c = some (CellMemento.mk c.i c.j 0)) :
    mapGet (initializeCellToken gen w c').game.cellTokens c = none := by
  by_cases he : c' = c
  · subst he
    unfold initializeCellToken
    rw [show mapHas w.game.cellTokens c' = false by simp [mapHas, hn]]
    simp only [Bool.false_eq_true, if_false, loadCell, hc]
    simp [hn]
  · unfold initializeCellToken
    repeat' split
    all_goals first
      | exact hn
      | (rw [show (mapGet (mapSet w.game.cellTokens c' _) c : Option Int)
            = mapGet w.game.cellTokens c
          from mapGet_mapSet_ne _ _ _ _ (fun h2 => he h2.symm)]
         exact hn)

theorem foldl_init_preserves_none (gen : Cell → Bool) (l : List Cell) (w : World)
    (c : Cell)
    (hn : mapGet w.game.cellTokens c = none)
    (hc : mapGet w.cellCache c = some (CellMemento.mk c.i c.j 0)) :
    mapGet (l.foldl (initializeCellToken gen) w).game.cellTokens c = none := by
  induction l generalizing w with
  | nil => exact hn
  | cons c0 tl ih =>
      rw [List.foldl_cons]
      apply ih
      · exact initializeCellToken_preserves_none gen w c c0 hn hc
      · rw [initializeCellToken_cellCache]
        exact hc

/-- A cell whose cache says "picked up" stays empty across `renderGrid`. -/
theorem renderGrid_preserves_none (gen : Cell → Bool) (w : World) (c : Cell)
    (hn : mapGet w.game.cellTokens c = none)
    (hc : mapGet w.cellCache c = some (CellMemento.mk c.i c.j 0)) :
    mapGet (renderGrid gen w).game.cellTokens c = none := by
  simp only [renderGrid]
  apply mapGet_filter_none
  exact foldl_init_preserves_none gen _ w c hn hc

/-! ## Branch characterizations of `handleCellClick` -/

theorem handleCellClick_oor (gen : Cell → Bool) (w : World) (c : Cell)
    (h : isInteractable w.game.playerLocation c = false) :
    handleCellClick gen w c = (ClickResult.outOfRange, w) := by
  unfold handleCellClick
  rw [h]
  simp

theorem handleCellClick_emptyPickup (gen : Cell → Bool) (w : World) (c : Cell)
    (hint : isInteractable w.game.playerLocation c = true)
    (hinv : w.game.playerInventory = none)
    (htok : mapGet w.game.cellTokens c = none) :
    handleCellClick gen w c = (ClickResult.emptyCellPickup, w) := by
  unfold handleCellClick
  rw [hint, hinv, htok]
  simp

theorem handleCellClick_pickup (gen : Cell → Bool) (w : World) (c : Cell) (t : Int)
    (hint : isInteractable w.game.playerLocation c = true)
    (hinv : w.game.playerInventory = none)
    (htok : mapGet w.game.cellTokens c = some t) :
    handleCellClick gen w c = (ClickResult.pickedUp t,
      checkWinCondition (renderGrid gen (saveGameState (saveCell
        { w with game :=
            { w.game with playerInventory := some t,
                          cellTokens := mapDelete w.game.cellTokens c } } c 0)))) := by
  unfold handleCellClick
  rw [hint, hinv, htok]
  simp

theorem handleCellClick_craftEmpty (gen : Cell → Bool) (w : World) (c : Cell) (v : Int)
    (hint : isInteractable w.game.playerLocation c = true)
    (hinv : w.game.playerInventory = some v)
    (htok : mapGet w.game.cellTokens c = none) :
    handleCellClick gen w c = (ClickResult.craftEmptyCell, w) := by
  unfold handleCellClick
  rw [hint, hinv, htok]
  simp

theorem handleCellClick_mismatch (gen : Cell → Bool) (w : World) (c : Cell) (v t : Int)
    (hint : isInteractable w.game.playerLocation c = true)
    (hinv : w.game.playerInventory = some v)
    (htok : mapGet w.game.cellTokens c = some t)
    (hne : t ≠ v) :
    handleCellClick gen w c = (ClickResult.mismatch, w) := by
  unfold handleCellClick
  rw [hint, hinv, htok]
  simp [hne]

theorem handleCellClick_craft (gen : Cell → Bool) (w : World) (c : Cell) (v : Int)
    (hint : isInteractable w.game.playerLocation c = true)
    (hinv : w.game.playerInventory = some v)
    (htok : mapGet w.game.cellTokens c = some v) :
    handleCellClick gen w c = (ClickResult.crafted (v * 2),
      checkWinCondition (renderGrid gen (saveGameState (saveCell
        { w with game :=
            { w.game with playerInventory := none,
                          cellTokens := mapSet w.game.cellTokens c (v * 2) } } c (v * 2))))) := by
  unfold handleCellClick
  rw [hint, hinv, htok]
  simp

theorem initializeCellToken_inv (gen : Cell → Bool) (w : World) (c : Cell)
    (h : InvW w) : InvW (initializeCellToken gen w c) := by
  obtain ⟨h1, h2, h3⟩ := h
  refine ⟨?_, ?_, ?_⟩
  · unfold initializeCellToken
    repeat' split
    all_goals first
      | exact h1
      | exact mapKeys_mapSet_nodup _ _ _ h1
  · rw [initializeCellToken_cellCache]; exact h2
  · rw [initializeCellToken_cellCache]; exact h3

theorem foldl_init_inv (gen : Cell → Bool) (l : List Cell) (w : World)
    (h : InvW w) : InvW (l.foldl (initializeCellToken gen) w) := by
  induction l generalizing w with
  | nil => exact h
  | cons c tl ih =>
      rw [List.foldl_cons]
      exact ih _ (initializeCellToken_inv gen w c h)

theorem renderGrid_inv (gen : Cell → Bool) (w : World) (h : InvW w) :
    InvW (renderGrid gen w) := by
  have h2 := foldl_init_inv gen (windowCells w.game.playerLocation) w h
  obtain ⟨ha, hb, hc⟩ := h2
  refine ⟨?_, ?_, ?_⟩
  · simp only [renderGrid]
    exact ha.sublist (mapKeys_filter_sublist _ _)
  · rw [renderGrid_cellCache]
    rw [foldl_init_cellCache] at hb
    exact hb
  · rw [renderGrid_cellCache]
    intro km hm
    apply hc
    rw [foldl_init_cellCache]
    exact hm

theorem saveCell_inv (w : World) (c : Cell) (x : Int) (h : InvW w) :
    InvW (saveCell w c x) := by
  obtain ⟨h1, h2, h3⟩ := h
  refine ⟨h1, mapKeys_mapSet_nodup _ _ _ h2, ?_⟩
  intro km hm
  rcases mem_mapSet _ _ _ _ hm with hm2 | hm2
  · exact h3 km hm2
  · rw [hm2]

theorem saveGameState_inv (w : World) (h : InvW w) : InvW (saveGameState w) := h

theorem checkWinCondition_inv (w : World) (h : InvW w) :
    InvW (checkWinCondition w) := by
  unfold checkWinCondition
  repeat' split
  all_goals exact h

theorem handleCellClick_inv (gen : Cell → Bool) (w : World) (c : Cell)
    (h : InvW w) : InvW (handleCellClick gen w c).2 := by
  unfold handleCellClick
  repeat' split
  all_goals simp only []
  · exact h
  · apply checkWinCondition_inv
    apply renderGrid_inv
    apply saveGameState_inv
    apply saveCell_inv
    obtain ⟨h1, h2, h3⟩ := h
    exact ⟨h1.sublist (mapKeys_mapDelete_sublist _ _), h2, h3⟩
  · exact h
  · exact h
  · apply checkWinCondition_inv
    apply renderGrid_inv
    apply saveGameState_inv
    apply saveCell_inv
    obtain ⟨h1, h2, h3⟩ := h
    exact ⟨mapKeys_mapSet_nodup _ _ _ h1, h2, h3⟩
  · exact h

theorem applyOp_inv (gen : Cell → Bool) (w : World) (op : Op) (h : InvW w) :
    InvW (applyOp gen w op) := by
  cases op with
  | move di dj =>
      show InvW (movePlayer gen w di dj)
      unfold movePlayer
      exact renderGrid_inv gen _ (saveGameState_inv _ h)
  | geo c =>
      show InvW (geoUpdate gen w c)
      unfold geoUpdate
      split
      · exact h
      · exact renderGrid_inv gen _ (saveGameState_inv _ h)
  | click c => exact handleCellClick_inv gen w c h
  | homeReset =>
      show InvW (homeReset gen w)
      unfold homeReset
      exact renderGrid_inv gen _ (saveGameState_inv _ h)
  | newGame =>
      show InvW (resetGameState gen w)
      unfold resetGameState
      exact renderGrid_inv gen _
        ⟨List.nodup_nil, List.nodup_nil, by intro km hm; cases hm⟩

theorem startupWorld_inv (gen : Cell → Bool) (s : Option Stored) :
    InvW (startupWorld gen s) := by
  apply renderGrid_inv
  exact ⟨List.nodup_nil, List.nodup_nil, by intro km hm; cases hm⟩

theorem foldl_applyOp_inv (gen : Cell → Bool) (ops : List Op) (w : World)
    (h : InvW w) : InvW (ops.foldl (applyOp gen) w) := by
  induction ops generalizing w with
  | nil => exact h
  | cons op tl ih =>
      rw [List.foldl_cons]
      exact ih _ (applyOp_inv gen w op h)

/-- Every world reached by a run of play satisfies the key invariant. -/
theorem run_inv (gen : Cell → Bool) (s : Option Stored) (ops : List Op) :
    InvW (run gen s ops) :=
  foldl_applyOp_inv gen ops _ (startupWorld_inv gen s)

theorem checkWinCondition_winAlerts (w : World) :
    (checkWinCondition w).winAlerts =
      w.winAlerts +
        (match w.game.playerInventory with
         | some v => if TARGET_TOKEN_VALUE ≤ v then 1 else 0
         | none => 0) := by
  unfold checkWinCondition
  cases hi : w.game.playerInventory with
  | none => simp
  | some v =>
      by_cases hv : v ≥ TARGET_TOKEN_VALUE
      · simp [hv, ge_iff_le]
      · simp [hv, ge_iff_le, fun h => hv h]

/-! ## The claims -/

/-- **C5**: with the player holding `v`, targeting an interactable cell whose
value equals `v` exactly succeeds: the cell's value becomes `2v`, an override
with the doubled value is written, and the inventory becomes empty; the
transition fails with `Mismatch` when the cell's value differs from `v`,
`EmptyCell` when the cell has no token, and `OutOfRange` when the cell is
not interactable. -/
theorem craft_transition_spec (gen : Cell → Bool) (w : World) (c : Cell) (v : Int)
    (hinv : w.game.playerInventory = some v) :
    (isInteractable w.game.playerLocation c = false →
       handleCellClick gen w c = (ClickResult.outOfRange, w)) ∧
    (isInteractable w.game.playerLocation c = true →
       mapGet w.game.cellTokens c = none →
       handleCellClick gen w c = (ClickResult.craftEmptyCell, w)) ∧
    (∀ t : Int, isInteractable w.game.playerLocation c = true →
       mapGet w.game.cellTokens c = some t → t ≠ v →
       handleCellClick gen w c = (ClickResult.mismatch, w)) ∧
    (isInteractable w.game.playerLocation c = true →
       mapGet w.game.cellTokens c = some v →
       (handleCellClick gen w c).1 = ClickResult.crafted (v * 2) ∧
       (handleCellClick gen w c).2.game.playerInventory = none ∧
       mapGet (handleCellClick gen w c).2.game.cellTokens c = some (v * 2) ∧
       mapGet (handleCellClick gen w c).2.cellCache c =
         some (CellMemento.mk c.i c.j (v * 2))) := by
  refine ⟨?_, ?_, ?_, ?_⟩
  · intro h
    exact handleCellClick_oor gen w c h
  · intro hint htok
    exact handleCellClick_craftEmpty gen w c v hint hinv htok
  · intro t hint htok hne
    exact handleCellClick_mismatch gen w c v t hint hinv htok hne
  · intro hint htok
    rw [handleCellClick_craft gen w c v hint hinv htok]
    refine ⟨rfl, ?_, ?_, ?_⟩
    · rw [checkWinCondition_game, renderGrid_playerInventory, saveGameState_game,
        saveCell_game]
    · rw [checkWinCondition_game]
      apply renderGrid_preserves_some
      · exact mapGet_mapSet_self _ _ _
      · exact isInteractable_le _ _ hint
    · rw [checkWinCondition_cellCache, renderGrid_cellCache, saveGameState_cellCache]
      exact mapGet_mapSet_self _ _ _

/-- **C7**: every failing interaction (out-of-range target, pickup or craft
on an empty cell, craft with mismatched values) leaves the entire game state
— player location, inventory, materialized tokens, override store, persisted
save, and even the alert count — unchanged. -/
theorem failed_click_no_mutation (gen : Cell → Bool) (w : World) (c : Cell)
    (h : clickSucceeded (handleCellClick gen w c).1 = false) :
    (handleCellClick gen w c).2 = w := by
  cases hb : isInteractable w.game.playerLocation c with
  | false => rw [handleCellClick_oor gen w c hb]
  | true =>
      cases hi : w.game.playerInventory with
      | none =>
          cases ht : mapGet w.game.cellTokens c with
          | none => rw [handleCellClick_emptyPickup gen w c hb hi ht]
          | some t =>
              exfalso
              rw [handleCellClick_pickup gen w c t hb hi ht] at h
              simp [clickSucceeded] at h
      | some v =>
          cases ht : mapGet w.game.cellTokens c with
          | none => rw [handleCellClick_craftEmpty gen w c v hb hi ht]
          | some t =>
              by_cases he : t = v
              · exfalso
                subst he
                rw [handleCellClick_craft gen w c t hb hi ht] at h
                simp [clickSucceeded] at h
              · rw [handleCellClick_mismatch gen w c v t hb hi ht he]

/-- **C8**: materialization covers exactly the `(2R+1)²` cells of the
Chebyshev ball of radius `R = NEIGHBORHOOD_SIZE` centered on the player —
regardless of the prior state — and after `renderGrid` no in-memory token
state remains for any cell outside the new window. -/
theorem window_size_invariant (p : Cell) :
    (windowCells p).length = (2 * NEIGHBORHOOD_SIZE + 1) ^ 2 ∧
    (windowCells p).Nodup ∧
    (∀ c : Cell, c ∈ windowCells p ↔ cellDistance c p ≤ NEIGHBORHOOD_SIZE) ∧
    (∀ (gen : Cell → Bool) (w : World) (c : Cell),
       ¬ cellDistance c w.game.playerLocation ≤ NEIGHBORHOOD_SIZE →
       mapGet (renderGrid gen w).game.cellTokens c = none) := by
  refine ⟨windowCells_length p, windowCells_nodup p, fun c => mem_windowCells p c, ?_⟩
  intro gen w c h
  exact renderGrid_outside_none gen w c h

/-- **C10**: the movement panel's home button only moves the player back to
the start cell and persists that state; inventory, override store, and the
persisted override records are untouched — while the separate New Game reset
clears the inventory, the override store, and the durable slot. -/
theorem homeReset_frame_effect (gen : Cell → Bool) (w : World) :
    (homeReset gen w).game.playerLocation = startCell ∧
    (homeReset gen w).game.playerInventory = w.game.playerInventory ∧
    (homeReset gen w).cellCache = w.cellCache ∧
    (homeReset gen w).storage =
      some (Stored.good
        (SaveData.mk startCell w.game.playerInventory (w.cellCache.map Prod.snd))) ∧
    (resetGameState gen w).game.playerLocation = startCell ∧
    (resetGameState gen w).game.playerInventory = none ∧
    (resetGameState gen w).cellCache = [] ∧
    (resetGameState gen w).storage = none := by
  refine ⟨?_, ?_, ?_, ?_, ?_, ?_, ?_, ?_⟩
  · rw [homeReset, renderGrid_playerLocation, saveGameState_game]
  · rw [homeReset, renderGrid_playerInventory, saveGameState_game]
  · rw [homeReset, renderGrid_cellCache, saveGameState_cellCache]
  · rw [homeReset, renderGrid_storage]
    rfl
  · rw [resetGameState, renderGrid_playerLocation]
  · rw [resetGameState, renderGrid_playerInventory]
  · rw [resetGameState, renderGrid_cellCache]
  · rw [resetGameState, renderGrid_storage]

/-- **C6 (amended)**: the win notification fires exactly at the pickup
transitions after which the inventory holds a value at least
`TARGET_TOKEN_VALUE` — crafting empties the inventory and never fires it,
failed interactions and movement/reset operations never fire it — and it is
not one-shot: every such qualifying pickup fires it again. -/
theorem win_notification_rule (gen : Cell → Bool) (w : World) (c p : Cell)
    (di dj : Int) :
    ((handleCellClick gen w c).2.winAlerts =
       w.winAlerts +
         (match (handleCellClick gen w c).1 with
          | ClickResult.pickedUp v => if TARGET_TOKEN_VALUE ≤ v then 1 else 0
          | _ => 0)) ∧
    (movePlayer gen w di dj).winAlerts = w.winAlerts ∧
    (geoUpdate gen w p).winAlerts = w.winAlerts ∧
    (homeReset gen w).winAlerts = w.winAlerts ∧
    (resetGameState gen w).winAlerts = w.winAlerts := by
  refine ⟨?_, ?_, ?_, ?_, ?_⟩
  · cases hb : isInteractable w.game.playerLocation c with
    | false =>
        rw [handleCellClick_oor gen w c hb]
        simp
    | true =>
        cases hi : w.game.playerInventory with
        | none =>
            cases ht : mapGet w.game.cellTokens c with
            | none =>
                rw [handleCellClick_emptyPickup gen w c hb hi ht]
                simp
            | some t =>
                rw [handleCellClick_pickup gen w c t hb hi ht]
                simp only [checkWinCondition_winAlerts, renderGrid_winAlerts,
                  renderGrid_playerInventory, saveGameState_winAlerts,
                  saveGameState_game, saveCell_winAlerts, saveCell_game]
        | some v =>
            cases ht : mapGet w.game.cellTokens c with
            | none =>
                rw [handleCellClick_craftEmpty gen w c v hb hi ht]
                simp
            | some t =>
                by_cases he : t = v
                · subst he
                  rw [handleCellClick_craft gen w c t hb hi ht]
                  simp only [checkWinCondition_winAlerts, renderGrid_winAlerts,
                    renderGrid_playerInventory, saveGameState_winAlerts,
                    saveGameState_game, saveCell_winAlerts, saveCell_game]
                · rw [handleCellClick_mismatch gen w c v t hb hi ht he]
                  simp
  · rw [movePlayer, renderGrid_winAlerts, saveGameState_winAlerts]
  · unfold geoUpdate
    split
    · rfl
    · rw [renderGrid_winAlerts, saveGameState_winAlerts]
  · rw [homeReset, renderGrid_winAlerts, saveGameState_winAlerts]
  · rw [resetGameState, renderGrid_winAlerts]

theorem initializeCellToken_PC (gen : Cell → Bool) (w : World) (c c' : Cell)
    (h : PickedClean c w) : PickedClean c (initializeCellToken gen w c') := by
  obtain ⟨hc, hn⟩ := h
  constructor
  · rw [initializeCellToken_cellCache]
    exact hc
  · exact initializeCellToken_preserves_none gen w c c' hn hc

theorem foldl_init_PC (gen : Cell → Bool) (l : List Cell) (w : World) (c : Cell)
    (h : PickedClean c w) : PickedClean c (l.foldl (initializeCellToken gen) w) := by
  induction l generalizing w with
  | nil => exact h
  | cons c0 tl ih =>
      rw [List.foldl_cons]
      exact ih _ (initializeCellToken_PC gen w c c0 h)

theorem renderGrid_PC (gen : Cell → Bool) (w : World) (c : Cell)
    (h : PickedClean c w) : PickedClean c (renderGrid gen w) := by
  obtain ⟨hc, hn⟩ := h
  constructor
  · rw [renderGrid_cellCache]
    exact hc
  · exact renderGrid_preserves_none gen w c hn hc

theorem saveGameState_PC (w : World) (c : Cell) (h : PickedClean c w) :
    PickedClean c (saveGameState w) := h

theorem checkWinCondition_PC (w : World) (c : Cell) (h : PickedClean c w) :
    PickedClean c (checkWinCondition w) := by
  obtain ⟨hc, hn⟩ := h
  constructor
  · rw [checkWinCondition_cellCache]
    exact hc
  · rw [checkWinCondition_game]
    exact hn

theorem saveCell_PC_ne (w : World) (c c' : Cell) (x : Int) (hne : c ≠ c')
    (h : PickedClean c w) : PickedClean c (saveCell w c' x) := by
  obtain ⟨hc, hn⟩ := h
  constructor
  · rw [show (saveCell w c' x).cellCache = mapSet w.cellCache c' (CellMemento.mk c'.i c'.j x)
        from rfl]
    rw [mapGet_mapSet_ne _ _ _ _ hne]
    exact hc
  · rw [saveCell_game]
    exact hn

theorem handleCellClick_PC (gen : Cell → Bool) (w : World) (c c' : Cell)
    (h : PickedClean c w) : PickedClean c (handleCellClick gen w c').2 := by
  obtain ⟨hc, hn⟩ := h
  cases hb : isInteractable w.game.playerLocation c' with
  | false =>
      rw [handleCellClick_oor gen w c' hb]
      exact ⟨hc, hn⟩
  | true =>
      cases hi : w.game.playerInventory with
      | none =>
          cases ht : mapGet w.game.cellTokens c' with
          | none =>
              rw [handleCellClick_emptyPickup gen w c' hb hi ht]
              exact ⟨hc, hn⟩
          | some t =>
              have hne : c ≠ c' := by
                intro he
                rw [← he, hn] at ht
                exact Option.noConfusion ht
              rw [handleCellClick_pickup gen w c' t hb hi ht]
              dsimp only
              apply checkWinCondition_PC
              apply renderGrid_PC
              apply saveGameState_PC
              apply saveCell_PC_ne _ _ _ _ hne
              exact ⟨hc, mapGet_mapDelete_none _ _ _ hn⟩
      | some v =>
          cases ht : mapGet w.game.cellTokens c' with
          | none =>
              rw [handleCellClick_craftEmpty gen w c' v hb hi ht]
              exact ⟨hc, hn⟩
          | some t =>
              by_cases he : t = v
              · subst he
                have hne : c ≠ c' := by
                  intro he2
                  rw [← he2, hn] at ht
                  exact Option.noConfusion ht
                rw [handleCellClick_craft gen w c' t hb hi ht]
                dsimp only
                apply checkWinCondition_PC
                apply renderGrid_PC
                apply saveGameState_PC
                apply saveCell_PC_ne _ _ _ _ hne
                refine ⟨hc, ?_⟩
                rw [mapGet_mapSet_ne _ _ _ _ hne]
                exact hn
              · rw [handleCellClick_mismatch gen w c' v t hb hi ht he]
                exact ⟨hc, hn⟩

theorem applyOp_PC (gen : Cell → Bool) (w : World) (c : Cell) (op : Op)
    (hop : op ≠ Op.newGame) (h : PickedClean c w) :
    PickedClean c (applyOp gen w op) := by
  cases op with
  | move di dj =>
      show PickedClean c (movePlayer gen w di dj)
      unfold movePlayer
      exact renderGrid_PC gen _ c (saveGameState_PC _ c h)
  | geo p =>
      show PickedClean c (geoUpdate gen w p)
      unfold geoUpdate
      split
      · exact h
      · exact renderGrid_PC gen _ c (saveGameState_PC _ c h)
  | click c' => exact handleCellClick_PC gen w c c' h
  | homeReset =>
      show PickedClean c (homeReset gen w)
      unfold homeReset
      exact renderGrid_PC gen _ c (saveGameState_PC _ c h)
  | newGame => exact absurd rfl hop

theorem foldl_applyOp_PC (gen : Cell → Bool) (c : Cell) (ops : List Op) :
    ∀ (w : World), Op.newGame ∉ ops → PickedClean c w →
      PickedClean c (ops.foldl (applyOp gen) w) := by
  induction ops with
  | nil => exact fun w _ h => h
  | cons op tl ih =>
      intro w hops h
      rw [List.foldl_cons]
      have h1 : op ≠ Op.newGame := by
        intro he
        exact hops (he ▸ List.mem_cons_self _ _)
      have h2 : Op.newGame ∉ tl := fun hm => hops (List.mem_cons_of_mem _ hm)
      exact ih _ h2 (applyOp_PC gen w c op h1 h)

/-- Inversion: a click that reported `pickedUp v` went through the pickup
branch. -/
theorem pickup_inversion (gen : Cell → Bool) (w : World) (c : Cell) (v : Int)
    (h : (handleCellClick gen w c).1 = ClickResult.pickedUp v) :
    isInteractable w.game.playerLocation c = true ∧
    w.game.playerInventory = none ∧
    mapGet w.game.cellTokens c = some v ∧
    (handleCellClick gen w c).2 =
      checkWinCondition (renderGrid gen (saveGameState (saveCell
        { w with game :=
            { w.game with playerInventory := some v,
                          cellTokens := mapDelete w.game.cellTokens c } } c 0))) := by
  cases hb : isInteractable w.game.playerLocation c with
  | false =>
      rw [handleCellClick_oor gen w c hb] at h
      exact absurd h (by simp)
  | true =>
      cases hi : w.game.playerInventory with
      | none =>
          cases ht : mapGet w.game.cellTokens c with
          | none =>
              rw [handleCellClick_emptyPickup gen w c hb hi ht] at h
              exact absurd h (by simp)
          | some t =>
              rw [handleCellClick_pickup gen w c t hb hi ht] at h ⊢
              obtain rfl : t = v := by simpa using h
              exact ⟨rfl, rfl, rfl, by dsimp only⟩
      | some v0 =>
          cases ht : mapGet w.game.cellTokens c with
          | none =>
              rw [handleCellClick_craftEmpty gen w c v0 hb hi ht] at h
              exact absurd h (by simp)
          | some t =>
              by_cases he : t = v0
              · subst he
                rw [handleCellClick_craft gen w c t hb hi ht] at h
                exact absurd h (by simp)
              · rw [handleCellClick_mismatch gen w c v0 t hb hi ht he] at h
                exact absurd h (by simp)

/-- **C1**: after a pickup on a cell, the cell's materialized state is empty
and remains empty on every later materialization of any continuation of the
run that does not pass through the New Game reset (which deliberately wipes
the override store): the `coins = 0` memento persists in the cache, the
in-memory token map never re-acquires the cell, and `initializeCellToken`
restores the cell as empty instead of regenerating a token. -/
theorem pickup_override_persists (gen : Cell → Bool) (s : Option Stored)
    (ops1 : List Op) (c : Cell) (v : Int) (ops2 : List Op)
    (hpick : (handleCellClick gen (run gen s ops1) c).1 = ClickResult.pickedUp v)
    (hnew : Op.newGame ∉ ops2) :
    mapGet (ops2.foldl (applyOp gen)
        (handleCellClick gen (run gen s ops1) c).2).game.cellTokens c = none ∧
    mapGet (initializeCellToken gen
        (ops2.foldl (applyOp gen) (handleCellClick gen (run gen s ops1) c).2)
        c).game.cellTokens c = none ∧
    mapGet (ops2.foldl (applyOp gen)
        (handleCellClick gen (run gen s ops1) c).2).cellCache c =
      some (CellMemento.mk c.i c.j 0) := by
  have hinv := run_inv gen s ops1
  obtain ⟨hint, hi, ht, heq⟩ := pickup_inversion gen _ c v hpick
  have hPC0 : PickedClean c (handleCellClick gen (run gen s ops1) c).2 := by
    rw [heq]
    apply checkWinCondition_PC
    apply renderGrid_PC
    apply saveGameState_PC
    constructor
    · exact mapGet_mapSet_self _ _ _
    · rw [saveCell_game]
      exact mapGet_mapDelete_self _ _ hinv.1
  have hPC := foldl_applyOp_PC gen c ops2 _ hnew hPC0
  refine ⟨hPC.2, ?_, hPC.1⟩
  exact (initializeCellToken_PC gen _ c c hPC).2

/-! ## Round trip of the persistence gateway (for C2) -/

theorem mapSet_append {α : Type} (m : List (Cell × α)) (k : Cell) (v : α)
    (h : k ∉ mapKeys m) : mapSet m k v = m ++ [(k, v)] := by
  induction m with
  | nil => rfl
  | cons hd tl ih =>
      obtain ⟨k0, v0⟩ := hd
      simp only [mapKeys, List.map_cons, List.mem_cons] at h
      push_neg at h
      have hne : ¬ k0 = k := fun he => h.1 he.symm
      simp only [mapSet, if_neg hne, List.cons_append, List.cons.injEq, true_and]
      exact ih (by simpa [mapKeys] using h.2)

theorem rebuild_cache (L acc : List (Cell × CellMemento))
    (hk : ∀ km ∈ L, km.1 = Cell.mk km.2.i km.2.j)
    (hnd : (mapKeys L).Nodup)
    (hdis : ∀ k ∈ mapKeys acc, k ∉ mapKeys L) :
    (L.map Prod.snd).foldl (fun a m => mapSet a (Cell.mk m.i m.j) m) acc = acc ++ L := by
  induction L generalizing acc with
  | nil => simp
  | cons hd tl ih =>
      obtain ⟨k0, m0⟩ := hd
      have hk0 : k0 = Cell.mk m0.i m0.j := hk (k0, m0) (List.mem_cons_self _ _)
      simp only [List.map_cons, List.foldl_cons]
      rw [← hk0]
      have hnotin : k0 ∉ mapKeys acc := by
        intro hmem
        exact hdis k0 hmem (by simp [mapKeys])
      rw [mapSet_append acc k0 m0 hnotin]
      simp only [mapKeys, List.map_cons, List.nodup_cons] at hnd
      rw [ih (acc ++ [(k0, m0)])
        (fun km hm => hk km (List.mem_cons_of_mem _ hm))
        hnd.2
        ?_]
      · simp
      · intro k hmem
        rw [show mapKeys (acc ++ [(k0, m0)]) = mapKeys acc ++ [k0] by simp [mapKeys]]
          at hmem
        rcases List.mem_append.mp hmem with hm2 | hm2
        · intro hmem2
          exact hdis k hm2 (List.mem_cons_of_mem _ hmem2)
        · obtain rfl : k = k0 := by simpa using hm2
          exact hnd.1

/-- **C2**: saving and immediately loading restores the state exactly: the
load succeeds, the player location and inventory come back unchanged, and
the override store is rebuilt as the very same list of `(cell, memento)`
records (hence the same set), for every reachable game state. -/
theorem save_load_roundtrip (gen : Cell → Bool) (s : Option Stored) (ops : List Op) :
    (loadGameState (saveGameState (run gen s ops))).1 = true ∧
    (loadGameState (saveGameState (run gen s ops))).2.game.playerLocation =
      (run gen s ops).game.playerLocation ∧
    (loadGameState (saveGameState (run gen s ops))).2.game.playerInventory =
      (run gen s ops).game.playerInventory ∧
    (loadGameState (saveGameState (run gen s ops))).2.cellCache =
      (run gen s ops).cellCache := by
  obtain ⟨-, hnd, hwk⟩ := run_inv gen s ops
  refine ⟨rfl, rfl, rfl, ?_⟩
  show (mkSaveData (run gen s ops)).cellCache.foldl
      (fun acc m => mapSet acc (Cell.mk m.i m.j) m) [] = (run gen s ops).cellCache
  rw [show (mkSaveData (run gen s ops)).cellCache =
      (run gen s ops).cellCache.map Prod.snd from rfl]
  rw [rebuild_cache _ [] hwk hnd (by intro k hm; cases hm)]
  simp

/-! ## The flyweight property (for C9) -/

theorem applyOpT_fst (gen : Cell → Bool) (p : World × List Cell) (op : Op) :
    (applyOpT gen p op).1 = applyOp gen p.1 op := by
  obtain ⟨w, acc⟩ := p
  cases op <;> dsimp only [applyOpT] <;> dsimp only [applyOp]

theorem foldl_applyOpT_fst (gen : Cell → Bool) (ops : List Op)
    (p : World × List Cell) :
    (ops.foldl (applyOpT gen) p).1 = ops.foldl (applyOp gen) p.1 := by
  induction ops generalizing p with
  | nil => rfl
  | cons op tl ih =>
      rw [List.foldl_cons, List.foldl_cons, ih, applyOpT_fst]

theorem runT_fst (gen : Cell → Bool) (s : Option Stored) (ops : List Op) :
    (runT gen s ops).1 = run gen s ops :=
  foldl_applyOpT_fst gen ops _

theorem applyOpT_acc_mono (gen : Cell → Bool) (p : World × List Cell) (op : Op)
    (x : Cell) (h : x ∈ p.2) : x ∈ (applyOpT gen p op).2 := by
  obtain ⟨w, acc⟩ := p
  cases op with
  | click c =>
      show x ∈ (if clickSucceeded (handleCellClick gen w c).1 then c :: acc else acc)
      split
      · exact List.mem_cons_of_mem _ h
      · exact h
  | move di dj => exact h
  | geo c => exact h
  | homeReset => exact h
  | newGame => exact h

theorem foldl_applyOpT_acc_mono (gen : Cell → Bool) (ops : List Op)
    (p : World × List Cell) (x : Cell) (h : x ∈ p.2) :
    x ∈ (ops.foldl (applyOpT gen) p).2 := by
  induction ops generalizing p with
  | nil => exact h
  | cons op tl ih =>
      rw [List.foldl_cons]
      exact ih _ (applyOpT_acc_mono gen p op x h)

/-- A failing click (any alert path) returns the world unchanged. -/
theorem handleCellClick_failed_eq (gen : Cell → Bool) (w : World) (c : Cell)
    (h : clickSucceeded (handleCellClick gen w c).1 = false) :
    (handleCellClick gen w c).2 = w := by
  cases hb : isInteractable w.game.playerLocation c with
  | false => rw [handleCellClick_oor gen w c hb]
  | true =>
      cases hi : w.game.playerInventory with
      | none =>
          cases ht : mapGet w.game.cellTokens c with
          | none => rw [handleCellClick_emptyPickup gen w c hb hi ht]
          | some t =>
              exfalso
              rw [handleCellClick_pickup gen w c t hb hi ht] at h
              simp [clickSucceeded] at h
      | some v =>
          cases ht : mapGet w.game.cellTokens c with
          | none => rw [handleCellClick_craftEmpty gen w c v hb hi ht]
          | some t =>
              by_cases he : t = v
              · exfalso
                subst he
                rw [handleCellClick_craft gen w c t hb hi ht] at h
                simp [clickSucceeded] at h
              · rw [handleCellClick_mismatch gen w c v t hb hi ht he]

/-- A click on one cell never creates a cache entry for another cell. -/
theorem handleCellClick_cache_none (gen : Cell → Bool) (w : World) (c q : Cell)
    (hne : q ≠ c) (h : mapGet w.cellCache q = none) :
    mapGet (handleCellClick gen w c).2.cellCache q = none := by
  cases hb : isInteractable w.game.playerLocation c with
  | false =>
      rw [handleCellClick_oor gen w c hb]
      exact h
  | true =>
      cases hi : w.game.playerInventory with
      | none =>
          cases ht : mapGet w.game.cellTokens c with
          | none =>
              rw [handleCellClick_emptyPickup gen w c hb hi ht]
              exact h
          | some t =>
              rw [handleCellClick_pickup gen w c t hb hi ht]
              rw [checkWinCondition_cellCache, renderGrid_cellCache,
                saveGameState_cellCache]
              show mapGet (mapSet w.cellCache c (CellMemento.mk c.i c.j 0)) q = none
              rw [mapGet_mapSet_ne _ _ _ _ hne]
              exact h
      | some v =>
          cases ht : mapGet w.game.cellTokens c with
          | none =>
              rw [handleCellClick_craftEmpty gen w c v hb hi ht]
              exact h
          | some t =>
              by_cases he : t = v
              · subst he
                rw [handleCellClick_craft gen w c t hb hi ht]
                rw [checkWinCondition_cellCache, renderGrid_cellCache,
                  saveGameState_cellCache]
                show mapGet (mapSet w.cellCache c
                  (CellMemento.mk c.i c.j (t * 2))) q = none
                rw [mapGet_mapSet_ne _ _ _ _ hne]
                exact h
              · rw [handleCellClick_mismatch gen w c v t hb hi ht he]
                exact h

theorem foldl_applyOpT_flyweight (gen : Cell → Bool) (ops : List Op) :
    ∀ (p : World × List Cell) (c : Cell),
      mapGet p.1.cellCache c = none →
      c ∉ (ops.foldl (applyOpT gen) p).2 →
      mapGet (ops.foldl (applyOpT gen) p).1.cellCache c = none := by
  induction ops with
  | nil => exact fun p c h _ => h
  | cons op tl ih =>
      intro p c h hacc
      obtain ⟨w, acc⟩ := p
      rw [List.foldl_cons] at hacc ⊢
      cases op with
      | move di dj =>
          apply ih _ c ?_ hacc
          show mapGet (movePlayer gen w di dj).cellCache c = none
          unfold movePlayer
          rw [renderGrid_cellCache, saveGameState_cellCache]
          exact h
      | geo p0 =>
          apply ih _ c ?_ hacc
          show mapGet (geoUpdate gen w p0).cellCache c = none
          unfold geoUpdate
          split
          · exact h
          · rw [renderGrid_cellCache, saveGameState_cellCache]
            exact h
      | homeReset =>
          apply ih _ c ?_ hacc
          show mapGet (homeReset gen w).cellCache c = none
          unfold homeReset
          rw [renderGrid_cellCache, saveGameState_cellCache]
          exact h
      | newGame =>
          apply ih _ c ?_ hacc
          show mapGet (resetGameState gen w).cellCache c = none
          unfold resetGameState
          rw [renderGrid_cellCache]
          rfl
      | click c0 =>
          by_cases hec : c = c0
          · subst hec
            by_cases hsucc : clickSucceeded (handleCellClick gen w c).1 = true
            · exfalso
              apply hacc
              apply foldl_applyOpT_acc_mono
              show c ∈ (if clickSucceeded (handleCellClick gen w c).1
                  then c :: acc else acc)
              rw [if_pos hsucc]
              exact List.mem_cons_self _ _
            · apply ih _ c ?_ hacc
              show mapGet (handleCellClick gen w c).2.cellCache c = none
              rw [handleCellClick_failed_eq gen w c (by
                revert hsucc
                cases clickSucceeded (handleCellClick gen w c).1 <;> simp)]
              exact h
          · apply ih _ c ?_ hacc
            show mapGet (handleCellClick gen w c0).2.cellCache c = none
            exact handleCellClick_cache_none gen w c0 c hec h

/-- **C9**: materializing a cell never writes to the override store, and in
every reachable state a cell that was never the target of a successful
pickup or craft has no entry in `cellCache`: the store only holds cells the
player actually interacted with. -/
theorem flyweight_property (gen : Cell → Bool) (s : Option Stored)
    (ops : List Op) (c : Cell)
    (h : c ∉ (runT gen s ops).2) :
    mapGet (run gen s ops).cellCache c = none ∧
    ∀ (w : World) (c0 : Cell),
      (initializeCellToken gen w c0).cellCache = w.cellCache := by
  constructor
  · rw [← runT_fst gen s ops]
    apply foldl_applyOpT_flyweight gen ops _ c ?_ h
    show mapGet (startupWorld gen s).cellCache c = none
    rw [show (startupWorld gen s).cellCache = [] from renderGrid_cellCache gen _]
    rfl
  · intro w c0
    exact initializeCellToken_cellCache gen w c0

/-! ## Startup ignores the persisted save (for C3) -/

theorem initializeCellToken_game_congr (gen : Cell → Bool) (w1 w2 : World) (c : Cell)
    (hg : w1.game = w2.game) (hc : w1.cellCache = w2.cellCache) :
    (initializeCellToken gen w1 c).game = (initializeCellToken gen w2 c).game := by
  unfold initializeCellToken loadCell
  rw [hg, hc]
  repeat' split
  all_goals first
    | exact hg
    | rfl
    | dsimp only

theorem foldl_init_game_congr (gen : Cell → Bool) (l : List Cell) :
    ∀ (w1 w2 : World), w1.game = w2.game → w1.cellCache = w2.cellCache →
      (l.foldl (initializeCellToken gen) w1).game =
        (l.foldl (initializeCellToken gen) w2).game := by
  induction l with
  | nil => exact fun w1 w2 hg _ => hg
  | cons c tl ih =>
      intro w1 w2 hg hc
      rw [List.foldl_cons, List.foldl_cons]
      apply ih
      · exact initializeCellToken_game_congr gen w1 w2 c hg hc
      · rw [initializeCellToken_cellCache, initializeCellToken_cellCache]
        exact hc

theorem renderGrid_game_congr (gen : Cell → Bool) (w1 w2 : World)
    (hg : w1.game = w2.game) (hc : w1.cellCache = w2.cellCache) :
    (renderGrid gen w1).game = (renderGrid gen w2).game := by
  have hfold := foldl_init_game_congr gen
    (windowCells w2.game.playerLocation) w1 w2 hg hc
  simp only [renderGrid]
  rw [hg, hfold]

/-- **C3** (the claim is what the spec intends, the code omits it): at
startup nothing reads the storage slot — `_loadGameState` has no caller —
so for every stored save the world after initialization carries the default
state: empty override store, empty inventory, player at the start cell, and
a game state identical to the one produced with no save at all.  The save
only sits untouched in the slot. -/
theorem startup_never_reads_save (gen : Cell → Bool) (s : Option Stored) :
    (startupWorld gen s).storage = s ∧
    (startupWorld gen s).cellCache = [] ∧
    (startupWorld gen s).game.playerInventory = none ∧
    (startupWorld gen s).game.playerLocation = startCell ∧
    (startupWorld gen s).game = (startupWorld gen none).game := by
  refine ⟨?_, ?_, ?_, ?_, ?_⟩
  · rw [startupWorld, renderGrid_storage]
  · rw [startupWorld, renderGrid_cellCache]
  · rw [startupWorld, renderGrid_playerInventory]
  · rw [startupWorld, renderGrid_playerLocation]
  · exact renderGrid_game_congr gen _ _ rfl rfl

/-! ## Load on absent, corrupt, and well-formed saves (for C4) -/

/-- **C4 (amended)**: `_loadGameState` returns `false` both when no save
exists and when the save is corrupt, so the caller cannot distinguish the
two from the result; a save that fails `JSON.parse` leaves the state fully
untouched, but a save that parses with a non-array `cellCache` field is a
partial mutation: the player fields are overwritten and the override store
is cleared before the error is caught.  No corrupt save makes the load
crash (it always returns), and a well-formed save loads with `true`. -/
theorem load_failure_behavior (w : World) :
    (w.storage = none → loadGameState w = (false, w)) ∧
    (w.storage = some Stored.badParse → loadGameState w = (false, w)) ∧
    (∀ loc inv, w.storage = some (Stored.badCache loc inv) →
       (loadGameState w).1 = false ∧
       (loadGameState w).2.cellCache = [] ∧
       (loadGameState w).2.game.playerLocation = loc ∧
       (loadGameState w).2.game.playerInventory = inv) ∧
    (∀ d, w.storage = some (Stored.good d) → (loadGameState w).1 = true) := by
  refine ⟨?_, ?_, ?_, ?_⟩
  · intro h
    unfold loadGameState
    rw [h]
  · intro h
    unfold loadGameState
    rw [h]
  · intro loc inv h
    unfold loadGameState
    rw [h]
    exact ⟨rfl, rfl, rfl, rfl⟩
  · intro d h
    unfold loadGameState
    rw [h]

/-- **C4 (counterexample)**: on the corrupt save of `w4cx` the load returns
the very same `false` as when no save exists at all — the caller cannot tell
first run from corruption — and the state is partially mutated: the override
store is cleared and the player inventory clobbered before the exception is
caught, contradicting the claimed absence of partial mutation. -/
theorem load_corrupt_counterexample :
    (loadGameState w4cx).1 = (loadGameState { w4cx with storage := none }).1 ∧
    (loadGameState w4cx).2.cellCache ≠ w4cx.cellCache ∧
    (loadGameState w4cx).2.game.playerInventory ≠ w4cx.game.playerInventory := by
  refine ⟨rfl, ?_, ?_⟩ <;> decide

theorem craft_transition_spec_witness :
    (handleCellClick genNone w5w ⟨1, 1⟩).1 = ClickResult.crafted (3 * 2) ∧
    (handleCellClick genNone w5w ⟨1, 1⟩).2.game.playerInventory = none :=
  have h := (craft_transition_spec genNone w5w ⟨1, 1⟩ 3 rfl).2.2.2
    (by decide) (by decide)
  ⟨h.1, h.2.1⟩

theorem failed_click_no_mutation_witness :
    (handleCellClick genNone w5w ⟨9, 9⟩).2 = w5w :=
  failed_click_no_mutation genNone w5w ⟨9, 9⟩ (by decide)

theorem window_size_invariant_witness :
    mapGet (renderGrid genNone w5w).game.cellTokens ⟨100, 100⟩ = none :=
  (window_size_invariant ⟨0, 0⟩).2.2.2 genNone w5w ⟨100, 100⟩ (by decide)

theorem flyweight_property_witness :
    mapGet (run genNone none []).cellCache ⟨0, 0⟩ = none :=
  (flyweight_property genNone none [] ⟨0, 0⟩ (by decide)).1

theorem load_failure_behavior_witness :
    loadGameState { w4cx with storage := some Stored.badParse }
      = (false, { w4cx with storage := some Stored.badParse }) ∧
    (loadGameState w4cx).1 = false :=
  ⟨(load_failure_behavior { w4cx with storage := some Stored.badParse }).2.1 rfl,
   ((load_failure_behavior w4cx).2.2.1 ⟨9, 9⟩ none rfl).1⟩

theorem mapGet_mapDelete_ne {α : Type} (m : List (Cell × α)) (k k' : Cell)
    (h : k' ≠ k) : mapGet (mapDelete m k) k' = mapGet m k' := by
  induction m with
  | nil => simp [mapDelete]
  | cons hd tl ih =>
      obtain ⟨k0, v0⟩ := hd
      by_cases h0 : k0 = k
      · subst h0
        have hne : ¬ k0 = k' := fun he => h (he.symm)
        simp [mapDelete, mapGet, hne]
      · by_cases h1 : k0 = k'
        · simp [mapDelete, mapGet, h0, h1, h]
        · simp [mapDelete, mapGet, h0, h1, ih]

theorem cacheOrGen_pos (gen : Cell → Bool) (cache : List (Cell × CellMemento))
    (c : Cell) (t : Int) (h : cacheOrGen gen cache c = some t) : 0 < t := by
  unfold cacheOrGen at h
  split at h
  · split at h
    · obtain rfl : _ = t := Option.some.inj h
      omega
    · exact absurd h (by simp)
  · split at h
    · obtain rfl : (1 : Int) = t := Option.some.inj h
      omega
    · exact absurd h (by simp)

theorem mapGet_some_of_has {α : Type} (m : List (Cell × α)) (c : Cell)
    (h : mapHas m c = true) : ∃ v, mapGet m c = some v := by
  cases hx : mapGet m c with
  | none => rw [mapHas, hx] at h; simp at h
  | some v => exact ⟨v, rfl⟩

theorem mapGet_none_of_not_has {α : Type} (m : List (Cell × α)) (c : Cell)
    (h : ¬ mapHas m c = true) : mapGet m c = none := by
  cases hx : mapGet m c with
  | none => rfl
  | some v => rw [mapHas, hx] at h; simp at h

/-- `initializeCellToken` leaves a cell empty when the store and generator
say it should be empty. -/
theorem initializeCellToken_preserves_none_cog (gen : Cell → Bool) (w : World)
    (c c' : Cell) (hn : mapGet w.game.cellTokens c = none)
    (hcog : cacheOrGen gen w.cellCache c = none) :
    mapGet (initializeCellToken gen w c').game.cellTokens c = none := by
  by_cases he : c' = c
  · subst he
    unfold initializeCellToken
    rw [if_neg (by rw [mapHas, hn]; simp)]
    unfold cacheOrGen at hcog
    unfold loadCell
    split at hcog
    · next m hm =>
        have hc : ¬ m.coins > 0 := by
          intro hgt
          rw [if_pos hgt] at hcog
          exact Option.noConfusion hcog
        simp only [if_neg hc]
        exact hn
    · next hm =>
        have hg : ¬ gen c' = true := by
          intro hgt
          rw [if_pos hgt] at hcog
          exact Option.noConfusion hcog
        rw [show shouldCellHaveToken gen c' = gen c' from rfl]
        rw [if_neg (by simp [hg])]
        exact hn
  · unfold initializeCellToken
    repeat' split
    all_goals first
      | exact hn
      | (rw [show (mapGet (mapSet w.game.cellTokens c' _) c : Option Int)
            = mapGet w.game.cellTokens c
          from mapGet_mapSet_ne _ _ _ _ (fun h2 => he h2.symm)]
         exact hn)

/-- `initializeCellToken` materializes its cell to exactly `cacheOrGen`. -/
theorem initializeCellToken_point (gen : Cell → Bool) (w : World) (c : Cell)
    (hCoh : Coh gen w) :
    mapGet (initializeCellToken gen w c).game.cellTokens c =
      cacheOrGen gen w.cellCache c := by
  by_cases hh : mapHas w.game.cellTokens c = true
  · obtain ⟨t, ht⟩ := mapGet_some_of_has _ _ hh
    unfold initializeCellToken
    rw [if_pos hh, ht]
    exact (hCoh c t ht).symm
  · have hx := mapGet_none_of_not_has _ _ hh
    unfold initializeCellToken
    rw [if_neg hh]
    unfold loadCell cacheOrGen
    cases hm : mapGet w.cellCache c with
    | some m =>
        by_cases hc : m.coins > 0
        · simp only [if_pos hc]
          exact mapGet_mapSet_self _ _ _
        · simp only [if_neg hc]
          exact hx
    | none =>
        by_cases hg : gen c = true
        · rw [show shouldCellHaveToken gen c = gen c from rfl]
          simp only [hg, if_true, if_pos rfl]
          exact mapGet_mapSet_self _ _ _
        · rw [show shouldCellHaveToken gen c = gen c from rfl]
          rw [if_neg (by simp [hg]), if_neg hg]
          exact hx

/-- `initializeCellToken` keeps the world coherent. -/
theorem initializeCellToken_Coh (gen : Cell → Bool) (w : World) (c' : Cell)
    (h : Coh gen w) : Coh gen (initializeCellToken gen w c') := by
  intro c t ht
  rw [initializeCellToken_cellCache] at *
  by_cases he : c' = c
  · subst he
    rw [initializeCellToken_point gen w c' h] at ht
    exact ht
  · unfold initializeCellToken at ht
    have hget : mapGet (initializeCellToken gen w c').game.cellTokens c =
        mapGet w.game.cellTokens c := by
      unfold initializeCellToken
      repeat' split
      all_goals first
        | rfl
        | exact mapGet_mapSet_ne _ _ _ _ (fun h2 => he h2.symm)
    unfold initializeCellToken at hget
    rw [hget] at ht
    exact h c t ht

theorem foldl_init_Coh (gen : Cell → Bool) (l : List Cell) :
    ∀ (w : World), Coh gen w → Coh gen (l.foldl (initializeCellToken gen) w) := by
  induction l with
  | nil => exact fun w h => h
  | cons c0 tl ih =>
      intro w h
      rw [List.foldl_cons]
      exact ih _ (initializeCellToken_Coh gen w c0 h)

theorem foldl_init_preserves_none_cog (gen : Cell → Bool) (l : List Cell) :
    ∀ (w : World) (c : Cell), mapGet w.game.cellTokens c = none →
      cacheOrGen gen w.cellCache c = none →
      mapGet (l.foldl (initializeCellToken gen) w).game.cellTokens c = none := by
  induction l with
  | nil => exact fun w c hn _ => hn
  | cons c0 tl ih =>
      intro w c hn hcog
      rw [List.foldl_cons]
      apply ih
      · exact initializeCellToken_preserves_none_cog gen w c c0 hn hcog
      · rw [initializeCellToken_cellCache]
        exact hcog

/-- After the materialization fold, every visited cell holds exactly
`cacheOrGen`. -/
theorem foldl_init_point (gen : Cell → Bool) (l : List Cell) :
    ∀ (w : World) (c : Cell), Coh gen w → c ∈ l →
      mapGet (l.foldl (initializeCellToken gen) w).game.cellTokens c =
        cacheOrGen gen w.cellCache c := by
  induction l with
  | nil => intro w c _ hmem; cases hmem
  | cons c0 tl ih =>
      intro w c hCoh hmem
      rw [List.foldl_cons]
      by_cases he : c0 = c
      · subst he
        have hpt := initializeCellToken_point gen w c0 hCoh
        cases hv : cacheOrGen gen w.cellCache c0 with
        | some t =>
            rw [hv] at hpt
            rw [foldl_init_preserves_some gen tl _ c0 t hpt]
        | none =>
            rw [hv] at hpt
            rw [foldl_init_preserves_none_cog gen tl _ c0 hpt
              (by rw [initializeCellToken_cellCache]; exact hv)]
      · rcases List.mem_cons.mp hmem with hmem2 | hmem2
        · exact absurd hmem2.symm he
        · rw [ih _ c (initializeCellToken_Coh gen w c0 hCoh) hmem2,
            initializeCellToken_cellCache]

theorem renderGrid_cellTokens (gen : Cell → Bool) (w : World) :
    (renderGrid gen w).game.cellTokens =
      List.filter
        (fun kv => decide (cellDistance kv.1 w.game.playerLocation ≤ NEIGHBORHOOD_SIZE))
        ((windowCells w.game.playerLocation).foldl
          (initializeCellToken gen) w).game.cellTokens := by
  simp only [renderGrid]

/-- `renderGrid` makes the window agree with the store and generator, and
keeps the world coherent. -/
theorem renderGrid_MatCoh (gen : Cell → Bool) (w : World) (h : Coh gen w) :
    Mat gen (renderGrid gen w) ∧ Coh gen (renderGrid gen w) := by
  have hM : Mat gen (renderGrid gen w) := by
    intro c hd
    rw [renderGrid_playerLocation] at hd
    have hmem : c ∈ windowCells w.game.playerLocation := (mem_windowCells _ _).mpr hd
    have hpt := foldl_init_point gen (windowCells w.game.playerLocation) w c h hmem
    rw [renderGrid_cellCache, renderGrid_cellTokens]
    cases hv : cacheOrGen gen w.cellCache c with
    | some t =>
        rw [hv] at hpt
        exact mapGet_filter_of_pred _ _ _ _ hpt (by simpa using hd)
    | none =>
        rw [hv] at hpt
        exact mapGet_filter_none _ _ _ hpt
  refine ⟨hM, ?_⟩
  intro c t ht
  by_cases hd : cellDistance c (renderGrid gen w).game.playerLocation ≤ NEIGHBORHOOD_SIZE
  · have := hM c hd
    rw [ht] at this
    rw [renderGrid_cellCache] at this
    rw [renderGrid_cellCache]
    exact this.symm
  · rw [renderGrid_outside_none gen w c
      (by rw [renderGrid_playerLocation] at hd; exact hd)] at ht
    exact Option.noConfusion ht

theorem isInteractable_iff (p c : Cell) :
    isInteractable p c = true ↔ cellDistance c p ≤ 3 := by
  simp [isInteractable]

theorem cellDistance_le_window (d : Nat) (h : d ≤ 3) : d ≤ NEIGHBORHOOD_SIZE := by
  unfold NEIGHBORHOOD_SIZE
  omega

theorem cacheOrGen_mapSet_ne (gen : Cell → Bool)
    (cache : List (Cell × CellMemento)) (X c : Cell) (m : CellMemento)
    (h : c ≠ X) :
    cacheOrGen gen (mapSet cache X m) c = cacheOrGen gen cache c := by
  unfold cacheOrGen
  rw [mapGet_mapSet_ne _ _ _ _ h]

theorem cacheOrGen_mapSet_self (gen : Cell → Bool)
    (cache : List (Cell × CellMemento)) (X : Cell) (v : Int) :
    cacheOrGen gen (mapSet cache X (CellMemento.mk X.i X.j v)) X =
      if v > 0 then some v else none := by
  unfold cacheOrGen
  rw [mapGet_mapSet_self]

/-- `Mat` and `Coh` only look at the game state and the cache. -/
theorem MatCoh_congr (gen : Cell → Bool) (w1 w2 : World)
    (hg : w1.game = w2.game) (hc : w1.cellCache = w2.cellCache) :
    (Mat gen w1 → Mat gen w2) ∧ (Coh gen w1 → Coh gen w2) := by
  constructor
  · intro h c hd
    rw [← hg, ← hc]
    exact h c (by rw [hg]; exact hd)
  · intro h c t ht
    rw [← hc]
    exact h c t (by rw [hg]; exact ht)

theorem traceClick_pickup_eq (gen : Cell → Bool) (s : TraceState) (X : Cell)
    (t : Int) (hd : cellDistance X s.loc ≤ 3) (hi : s.inv = none)
    (hv : cacheOrGen gen s.cache X = some t) :
    traceClick gen s X =
      { s with inv := some t,
               cache := mapSet s.cache X ⟨X.i, X.j, 0⟩,
               alerts := s.alerts + if TARGET_TOKEN_VALUE ≤ t then 1 else 0 } := by
  unfold traceClick
  rw [if_pos hd, hi, hv]

theorem traceClick_craft_eq (gen : Cell → Bool) (s : TraceState) (X : Cell)
    (v : Int) (hd : cellDistance X s.loc ≤ 3) (hi : s.inv = some v)
    (hv : cacheOrGen gen s.cache X = some v) :
    traceClick gen s X =
      { s with inv := none, cache := mapSet s.cache X ⟨X.i, X.j, v * 2⟩ } := by
  unfold traceClick
  rw [if_pos hd, hi, hv]
  simp

theorem traceClick_far_eq (gen : Cell → Bool) (s : TraceState) (X : Cell)
    (hd : ¬ cellDistance X s.loc ≤ 3) : traceClick gen s X = s := by
  unfold traceClick
  rw [if_neg hd]

theorem traceClick_emptyPickup_eq (gen : Cell → Bool) (s : TraceState) (X : Cell)
    (hd : cellDistance X s.loc ≤ 3) (hi : s.inv = none)
    (hv : cacheOrGen gen s.cache X = none) : traceClick gen s X = s := by
  unfold traceClick
  rw [if_pos hd, hi, hv]

theorem traceClick_craftEmpty_eq (gen : Cell → Bool) (s : TraceState) (X : Cell)
    (v : Int) (hd : cellDistance X s.loc ≤ 3) (hi : s.inv = some v)
    (hv : cacheOrGen gen s.cache X = none) : traceClick gen s X = s := by
  unfold traceClick
  rw [if_pos hd, hi, hv]

theorem traceClick_mismatch_eq (gen : Cell → Bool) (s : TraceState) (X : Cell)
    (v t : Int) (hd : cellDistance X s.loc ≤ 3) (hi : s.inv = some v)
    (hv : cacheOrGen gen s.cache X = some t) (hne : t ≠ v) :
    traceClick gen s X = s := by
  unfold traceClick
  rw [if_pos hd, hi, hv]
  simp [hne]

/-- Committing a transition (mutate, write through, persist, re-render,
check win) lands in agreement with the abstract state. -/
theorem after_commit_agrees (gen : Cell → Bool) (w2 : World) (s2 : TraceState)
    (hloc : w2.game.playerLocation = s2.loc)
    (hinv : w2.game.playerInventory = s2.inv)
    (hcache : w2.cellCache = s2.cache)
    (halerts : w2.winAlerts +
      (match s2.inv with
       | some v => if TARGET_TOKEN_VALUE ≤ v then 1 else 0
       | none => 0) = s2.alerts)
    (hCoh : Coh gen w2) (hI : InvW w2) :
    Agrees gen (checkWinCondition (renderGrid gen w2)) s2 := by
  have hMC := renderGrid_MatCoh gen w2 hCoh
  have hgame := checkWinCondition_game (renderGrid gen w2)
  have hcache2 := checkWinCondition_cellCache (renderGrid gen w2)
  have hMC2 := MatCoh_congr gen (renderGrid gen w2) (checkWinCondition (renderGrid gen w2))
    hgame.symm hcache2.symm
  refine ⟨?_, ?_, ?_, ?_, hMC2.1 hMC.1, hMC2.2 hMC.2, ?_⟩
  · rw [hgame, renderGrid_playerLocation]
    exact hloc
  · rw [hgame, renderGrid_playerInventory]
    exact hinv
  · rw [hcache2, renderGrid_cellCache]
    exact hcache
  · rw [checkWinCondition_winAlerts, renderGrid_winAlerts,
      renderGrid_playerInventory, hinv]
    exact halerts
  · exact checkWinCondition_inv _ (renderGrid_inv gen _ hI)

/-- A successful pickup tracks the abstract replay exactly. -/
theorem pickup_agrees (gen : Cell → Bool) (w : World) (s : TraceState) (X : Cell)
    (t : Int) (hA : Agrees gen w s)
    (hint : isInteractable w.game.playerLocation X = true)
    (hinv : w.game.playerInventory = none)
    (htok : mapGet w.game.cellTokens X = some t) :
    Agrees gen (handleCellClick gen w X).2
      { s with inv := some t,
               cache := mapSet s.cache X ⟨X.i, X.j, 0⟩,
               alerts := s.alerts + if TARGET_TOKEN_VALUE ≤ t then 1 else 0 } := by
  obtain ⟨hloc, hi, hc, ha, hM, hC, hI⟩ := hA
  rw [handleCellClick_pickup gen w X t hint hinv htok]
  dsimp only
  apply after_commit_agrees
  · rw [saveGameState_game, saveCell_game]
    exact hloc
  · rw [saveGameState_game, saveCell_game]
  · rw [saveGameState_cellCache]
    show mapSet w.cellCache X (CellMemento.mk X.i X.j 0) =
      mapSet s.cache X (CellMemento.mk X.i X.j 0)
    rw [hc]
  · rw [saveGameState_winAlerts, saveCell_winAlerts]
    show w.winAlerts + _ = s.alerts + _
    rw [ha]
  · intro c t2 ht2
    have ht3 : mapGet (mapDelete w.game.cellTokens X) c = some t2 := ht2
    by_cases he : c = X
    · subst he
      rw [mapGet_mapDelete_self _ _ hI.1] at ht3
      exact Option.noConfusion ht3
    · rw [mapGet_mapDelete_ne _ _ _ he] at ht3
      show cacheOrGen gen (mapSet w.cellCache X (CellMemento.mk X.i X.j 0)) c = some t2
      rw [cacheOrGen_mapSet_ne gen _ X c _ he]
      exact hC c t2 ht3
  · apply saveGameState_inv
    apply saveCell_inv
    exact ⟨hI.1.sublist (mapKeys_mapDelete_sublist _ _), hI.2.1, hI.2.2⟩

/-- A successful craft tracks the abstract replay exactly. -/
theorem craft_agrees (gen : Cell → Bool) (w : World) (s : TraceState) (X : Cell)
    (v : Int) (hA : Agrees gen w s)
    (hint : isInteractable w.game.playerLocation X = true)
    (hinv : w.game.playerInventory = some v)
    (htok : mapGet w.game.cellTokens X = some v) :
    Agrees gen (handleCellClick gen w X).2
      { s with inv := none, cache := mapSet s.cache X ⟨X.i, X.j, v * 2⟩ } := by
  obtain ⟨hloc, hi, hc, ha, hM, hC, hI⟩ := hA
  have hvpos : 0 < v := cacheOrGen_pos gen w.cellCache X v (hC X v htok)
  rw [handleCellClick_craft gen w X v hint hinv htok]
  dsimp only
  apply after_commit_agrees
  · rw [saveGameState_game, saveCell_game]
    exact hloc
  · rw [saveGameState_game, saveCell_game]
  · rw [saveGameState_cellCache]
    show mapSet w.cellCache X (CellMemento.mk X.i X.j (v * 2)) =
      mapSet s.cache X (CellMemento.mk X.i X.j (v * 2))
    rw [hc]
  · rw [saveGameState_winAlerts, saveCell_winAlerts]
    show w.winAlerts + 0 = s.alerts
    rw [ha]
    rfl
  · intro c t2 ht2
    have ht3 : mapGet (mapSet w.game.cellTokens X (v * 2)) c = some t2 := ht2
    by_cases he : c = X
    · subst he
      rw [mapGet_mapSet_self] at ht3
      obtain rfl : v * 2 = t2 := Option.some.inj ht3
      show cacheOrGen gen (mapSet w.cellCache c (CellMemento.mk c.i c.j (v * 2))) c
        = some (v * 2)
      rw [cacheOrGen_mapSet_self]
      rw [if_pos (by omega)]
    · rw [mapGet_mapSet_ne _ _ _ _ he] at ht3
      show cacheOrGen gen (mapSet w.cellCache X (CellMemento.mk X.i X.j (v * 2))) c
        = some t2
      rw [cacheOrGen_mapSet_ne gen _ X c _ he]
      exact hC c t2 ht3
  · apply saveGameState_inv
    apply saveCell_inv
    exact ⟨mapKeys_mapSet_nodup _ _ _ hI.1, hI.2.1, hI.2.2⟩

/-- Moving (in any way) and re-rendering agrees with the abstract replay. -/
theorem after_move_agrees (gen : Cell → Bool) (w2 : World) (s2 : TraceState)
    (hloc : w2.game.playerLocation = s2.loc)
    (hinv : w2.game.playerInventory = s2.inv)
    (hcache : w2.cellCache = s2.cache)
    (halerts : w2.winAlerts = s2.alerts)
    (hCoh : Coh gen w2) (hI : InvW w2) :
    Agrees gen (renderGrid gen (saveGameState w2)) s2 := by
  have hCoh2 : Coh gen (saveGameState w2) := hCoh
  have hMC := renderGrid_MatCoh gen (saveGameState w2) hCoh2
  refine ⟨?_, ?_, ?_, ?_, hMC.1, hMC.2, ?_⟩
  · rw [renderGrid_playerLocation, saveGameState_game]
    exact hloc
  · rw [renderGrid_playerInventory, saveGameState_game]
    exact hinv
  · rw [renderGrid_cellCache, saveGameState_cellCache]
    exact hcache
  · rw [renderGrid_winAlerts, saveGameState_winAlerts]
    exact halerts
  · exact renderGrid_inv gen _ (saveGameState_inv _ hI)

/-- One operation keeps the world in agreement with the abstract replay. -/
theorem applyOp_agrees (gen : Cell → Bool) (w : World) (s : TraceState) (op : Op)
    (hA : Agrees gen w s) : Agrees gen (applyOp gen w op) (traceOp gen s op) := by
  obtain ⟨hloc, hi, hc, ha, hM, hC, hI⟩ := hA
  cases op with
  | move di dj =>
      show Agrees gen (movePlayer gen w di dj) _
      unfold movePlayer
      apply after_move_agrees
      · show (Cell.mk (w.game.playerLocation.i + di) (w.game.playerLocation.j + dj)) =
          (traceOp gen s (Op.move di dj)).loc
        rw [hloc]
        rfl
      · exact hi
      · exact hc
      · exact ha
      · exact hC
      · exact hI
  | geo p =>
      show Agrees gen (geoUpdate gen w p) _
      unfold geoUpdate
      split
      · next he =>
          refine ⟨?_, hi, hc, ha, hM, hC, hI⟩
          show w.game.playerLocation = p
          exact he.symm
      · apply after_move_agrees
        · show p = (traceOp gen s (Op.geo p)).loc
          rfl
        · exact hi
        · exact hc
        · exact ha
        · exact hC
        · exact hI
  | homeReset =>
      show Agrees gen (homeReset gen w) _
      unfold homeReset
      apply after_move_agrees
      · show startCell = (traceOp gen s Op.homeReset).loc
        rfl
      · exact hi
      · exact hc
      · exact ha
      · exact hC
      · exact hI
  | newGame =>
      show Agrees gen (resetGameState gen w) _
      unfold resetGameState
      have hCohF : Coh gen
          { game := { playerLocation := startCell, playerInventory := none,
                      cellTokens := [] },
            cellCache := [], storage := none, winAlerts := w.winAlerts } := by
        intro c t ht
        exact absurd ht (by simp [mapGet])
      have hMC := renderGrid_MatCoh gen _ hCohF
      refine ⟨?_, ?_, ?_, ?_, hMC.1, hMC.2, ?_⟩
      · rw [renderGrid_playerLocation]
        rfl
      · rw [renderGrid_playerInventory]
        rfl
      · rw [renderGrid_cellCache]
        rfl
      · rw [renderGrid_winAlerts]
        exact ha
      · apply renderGrid_inv
        exact ⟨List.nodup_nil, List.nodup_nil, by intro km hm; cases hm⟩
  | click X =>
      show Agrees gen (handleCellClick gen w X).2 (traceClick gen s X)
      by_cases hd : cellDistance X s.loc ≤ 3
      · have hint : isInteractable w.game.playerLocation X = true := by
          rw [isInteractable_iff, hloc]
          exact hd
        have hwin : cellDistance X w.game.playerLocation ≤ NEIGHBORHOOD_SIZE := by
          rw [hloc]
          exact cellDistance_le_window _ hd
        have htok := hM X hwin
        rw [hc] at htok
        cases hi2 : s.inv with
        | none =>
            have hinv : w.game.playerInventory = none := by rw [hi, hi2]
            cases hv : cacheOrGen gen s.cache X with
            | none =>
                rw [traceClick_emptyPickup_eq gen s X hd hi2 hv]
                rw [hv] at htok
                rw [handleCellClick_emptyPickup gen w X hint hinv htok]
                exact ⟨hloc, hi, hc, ha, hM, hC, hI⟩
            | some t =>
                rw [traceClick_pickup_eq gen s X t hd hi2 hv]
                rw [hv] at htok
                exact pickup_agrees gen w s X t ⟨hloc, hi, hc, ha, hM, hC, hI⟩
                  hint hinv htok
        | some v =>
            have hinv : w.game.playerInventory = some v := by rw [hi, hi2]
            cases hv : cacheOrGen gen s.cache X with
            | none =>
                rw [traceClick_craftEmpty_eq gen s X v hd hi2 hv]
                rw [hv] at htok
                rw [handleCellClick_craftEmpty gen w X v hint hinv htok]
                exact ⟨hloc, hi, hc, ha, hM, hC, hI⟩
            | some t =>
                by_cases he : t = v
                · subst he
                  rw [traceClick_craft_eq gen s X t hd hi2 hv]
                  rw [hv] at htok
                  exact craft_agrees gen w s X t ⟨hloc, hi, hc, ha, hM, hC, hI⟩
                    hint hinv htok
                · rw [traceClick_mismatch_eq gen s X v t hd hi2 hv he]
                  rw [hv] at htok
                  rw [handleCellClick_mismatch gen w X v t hint hinv htok he]
                  exact ⟨hloc, hi, hc, ha, hM, hC, hI⟩
      · have hint : isInteractable w.game.playerLocation X = false := by
          simp [isInteractable, hloc, hd]
        rw [traceClick_far_eq gen s X hd]
        rw [handleCellClick_oor gen w X hint]
        exact ⟨hloc, hi, hc, ha, hM, hC, hI⟩

theorem foldl_agrees (gen : Cell → Bool) (ops : List Op) :
    ∀ (w : World) (s : TraceState), Agrees gen w s →
      Agrees gen (ops.foldl (applyOp gen) w) (ops.foldl (traceOp gen) s) := by
  induction ops with
  | nil => exact fun w s h => h
  | cons op tl ih =>
      intro w s h
      rw [List.foldl_cons, List.foldl_cons]
      exact ih _ _ (applyOp_agrees gen w s op h)

theorem startup_agrees (gen : Cell → Bool) (st : Option Stored) :
    Agrees gen (startupWorld gen st)
      { loc := startCell, inv := none, cache := [], alerts := 0 } := by
  unfold startupWorld
  have hCohF : Coh gen
      { game := { playerLocation := startCell, playerInventory := none,
                  cellTokens := [] },
        cellCache := [], storage := st, winAlerts := 0 } := by
    intro c t ht
    exact absurd ht (by simp [mapGet])
  have hMC := renderGrid_MatCoh gen _ hCohF
  refine ⟨?_, ?_, ?_, ?_, hMC.1, hMC.2, ?_⟩
  · rw [renderGrid_playerLocation]
  · rw [renderGrid_playerInventory]
  · rw [renderGrid_cellCache]
  · rw [renderGrid_winAlerts]
  · apply renderGrid_inv
    exact ⟨List.nodup_nil, List.nodup_nil, by intro km hm; cases hm⟩

/-- The abstract replay is exact for whole runs. -/
theorem run_simulation (gen : Cell → Bool) (st : Option Stored) (ops : List Op) :
    Agrees gen (run gen st ops) (traceRun gen ops) :=
  foldl_agrees gen ops _ _ (startup_agrees gen st)

theorem ops6_eq_chunks : ops6 = ops6c0 ++ ops6c1 ++ ops6c2 ++ ops6c3 ++ ops6c4 ++ ops6c5 ++ ops6c6 ++ ops6c7 ++ ops6c8 := by decide

set_option maxRecDepth 4000 in
theorem ts_step0 : List.foldl (traceOp gen6) ts0 ops6c0 = ts1 := by decide

set_option maxRecDepth 4000 in
theorem ts_step1 : List.foldl (traceOp gen6) ts1 ops6c1 = ts2 := by decide

set_option maxRecDepth 4000 in
theorem ts_step2 : List.foldl (traceOp gen6) ts2 ops6c2 = ts3 := by decide

set_option maxRecDepth 4000 in
theorem ts_step3 : List.foldl (traceOp gen6) ts3 ops6c3 = ts4 := by decide

set_option maxRecDepth 4000 in
theorem ts_step4 : List.foldl (traceOp gen6) ts4 ops6c4 = ts5 := by decide

set_option maxRecDepth 4000 in
theorem ts_step5 : List.foldl (traceOp gen6) ts5 ops6c5 = ts6 := by decide

set_option maxRecDepth 4000 in
theorem ts_step6 : List.foldl (traceOp gen6) ts6 ops6c6 = ts7 := by decide

set_option maxRecDepth 4000 in
theorem ts_step7 : List.foldl (traceOp gen6) ts7 ops6c7 = ts8 := by decide

set_option maxRecDepth 4000 in
theorem ts_step8 : List.foldl (traceOp gen6) ts8 ops6c8 = ts9 := by decide

theorem traceRun_ops6 : (traceRun gen6 ops6).alerts = 2 := by
  unfold traceRun
  rw [show ({ loc := startCell, inv := none, cache := [], alerts := 0 } : TraceState)
    = ts0 from rfl]
  rw [ops6_eq_chunks]
  rw [List.foldl_append, List.foldl_append, List.foldl_append, List.foldl_append,
    List.foldl_append, List.foldl_append, List.foldl_append, List.foldl_append]
  rw [ts_step0, ts_step1, ts_step2, ts_step3, ts_step4, ts_step5, ts_step6,
    ts_step7, ts_step8]
  rfl

/-- **C6 (counterexample)**: an explicit 146-operation run of play
(geolocation moves and cell clicks from a fresh start) in which the win
notification fires twice — once at the first pickup of a 32-valued token and
once more at the pickup of the 64-valued token crafted from two 32s — so the
notification is not one-shot and "fires exactly once per run" is false. -/
theorem win_notification_counterexample : (run gen6 none ops6).winAlerts = 2 := by
  rw [(run_simulation gen6 none ops6).2.2.2.1]
  exact traceRun_ops6

theorem pickup_override_persists_witness :
    mapGet (([Op.move 1 0]).foldl (applyOp gen1)
        (handleCellClick gen1 (run gen1 none []) cW1).2).game.cellTokens cW1 = none := by
  obtain ⟨hloc, hi, hc, ha, hM, hC, hI⟩ := run_simulation gen1 none []
  have hd : cellDistance cW1 (run gen1 none []).game.playerLocation ≤
      NEIGHBORHOOD_SIZE := by
    rw [hloc]
    decide
  have hM2 : mapGet (run gen1 none []).game.cellTokens cW1 = some 1 := by
    have h2 := hM cW1 hd
    rw [hc] at h2
    rw [h2]
    decide
  have hint : isInteractable (run gen1 none []).game.playerLocation cW1 = true := by
    rw [isInteractable_iff, hloc]
    decide
  have hinv : (run gen1 none []).game.playerInventory = none := by
    rw [hi]
    rfl
  have hpick : (handleCellClick gen1 (run gen1 none []) cW1).1 =
      ClickResult.pickedUp 1 := by
    rw [handleCellClick_pickup gen1 (run gen1 none []) cW1 1 hint hinv hM2]
  exact (pickup_override_persists gen1 none [] cW1 1 [Op.move 1 0]
    hpick (by decide)).1
